import Mathlib

/-!
Verification of the jwt-proxy policy and transformation pipeline.

The definitions below are a shallow embedding of the Python sources:
`jwt_proxy/api.py`, `jwt_proxy/policy_engine.py`, and the shipped policy
modules `05_allow_patient_summary.py`, `50_fhir_request_security.py` and
`51_fhir_response_security.py`.  JSON-like Python values are modelled by
the inductive type `JSON`; Python dictionaries are association lists with
first-match lookup and in-place update, matching CPython dict semantics
(insertion order preserved, assignment to an existing key keeps its slot).
-/

namespace JwtProxy

/-- JSON-like Python values (dicts, lists, strings, ints, bools, None). -/
inductive JSON where
  | null : JSON
  | bool (b : Bool) : JSON
  | num (n : Int) : JSON
  | str (s : String) : JSON
  | arr (elems : List JSON) : JSON
  | obj (fields : List (String × JSON)) : JSON

mutual
/-- Decidable equality of JSON values (nested inductive, so written by hand). -/
def decEqJSON : (a b : JSON) → Decidable (a = b)
  | .null, .null => .isTrue rfl
  | .bool a, .bool b =>
    if h : a = b then .isTrue (by rw [h]) else .isFalse fun he => h (by cases he; rfl)
  | .num a, .num b =>
    if h : a = b then .isTrue (by rw [h]) else .isFalse fun he => h (by cases he; rfl)
  | .str a, .str b =>
    if h : a = b then .isTrue (by rw [h]) else .isFalse fun he => h (by cases he; rfl)
  | .arr a, .arr b =>
    match decEqJSONList a b with
    | .isTrue h => .isTrue (by rw [h])
    | .isFalse h => .isFalse fun he => h (by cases he; rfl)
  | .obj a, .obj b =>
    match decEqJSONFields a b with
    | .isTrue h => .isTrue (by rw [h])
    | .isFalse h => .isFalse fun he => h (by cases he; rfl)
  | .null, .bool _ => .isFalse nofun
  | .null, .num _ => .isFalse nofun
  | .null, .str _ => .isFalse nofun
  | .null, .arr _ => .isFalse nofun
  | .null, .obj _ => .isFalse nofun
  | .bool _, .null => .isFalse nofun
  | .bool _, .num _ => .isFalse nofun
  | .bool _, .str _ => .isFalse nofun
  | .bool _, .arr _ => .isFalse nofun
  | .bool _, .obj _ => .isFalse nofun
  | .num _, .null => .isFalse nofun
  | .num _, .bool _ => .isFalse nofun
  | .num _, .str _ => .isFalse nofun
  | .num _, .arr _ => .isFalse nofun
  | .num _, .obj _ => .isFalse nofun
  | .str _, .null => .isFalse nofun
  | .str _, .bool _ => .isFalse nofun
  | .str _, .num _ => .isFalse nofun
  | .str _, .arr _ => .isFalse nofun
  | .str _, .obj _ => .isFalse nofun
  | .arr _, .null => .isFalse nofun
  | .arr _, .bool _ => .isFalse nofun
  | .arr _, .num _ => .isFalse nofun
  | .arr _, .str _ => .isFalse nofun
  | .arr _, .obj _ => .isFalse nofun
  | .obj _, .null => .isFalse nofun
  | .obj _, .bool _ => .isFalse nofun
  | .obj _, .num _ => .isFalse nofun
  | .obj _, .str _ => .isFalse nofun
  | .obj _, .arr _ => .isFalse nofun

/-- Decidable equality of lists of JSON values. -/
def decEqJSONList : (a b : List JSON) → Decidable (a = b)
  | [], [] => .isTrue rfl
  | [], _ :: _ => .isFalse nofun
  | _ :: _, [] => .isFalse nofun
  | x :: xs, y :: ys =>
    match decEqJSON x y, decEqJSONList xs ys with
    | .isTrue h1, .isTrue h2 => .isTrue (by rw [h1, h2])
    | .isFalse h1, _ => .isFalse fun he => h1 (by cases he; rfl)
    | _, .isFalse h2 => .isFalse fun he => h2 (by cases he; rfl)

/-- Decidable equality of JSON association lists. -/
def decEqJSONFields : (a b : List (String × JSON)) → Decidable (a = b)
  | [], [] => .isTrue rfl
  | [], _ :: _ => .isFalse nofun
  | _ :: _, [] => .isFalse nofun
  | (k, v) :: xs, (k2, v2) :: ys =>
    match String.decEq k k2, decEqJSON v v2, decEqJSONFields xs ys with
    | .isTrue h0, .isTrue h1, .isTrue h2 => .isTrue (by rw [h0, h1, h2])
    | .isFalse h0, _, _ => .isFalse fun he => h0 (by cases he; rfl)
    | _, .isFalse h1, _ => .isFalse fun he => h1 (by cases he; rfl)
    | _, _, .isFalse h2 => .isFalse fun he => h2 (by cases he; rfl)
end

instance : DecidableEq JSON := decEqJSON

instance {ε α : Type} [DecidableEq ε] [DecidableEq α] : DecidableEq (Except ε α)
  | .ok a, .ok b =>
    if h : a = b then .isTrue (by rw [h]) else .isFalse fun he => h (by cases he; rfl)
  | .error a, .error b =>
    if h : a = b then .isTrue (by rw [h]) else .isFalse fun he => h (by cases he; rfl)
  | .ok _, .error _ => .isFalse nofun
  | .error _, .ok _ => .isFalse nofun

namespace JSON

/-- First-match lookup in an association list (Python dict access). -/
def lookupField : List (String × JSON) → String → Option JSON
  | [], _ => none
  | (k, v) :: rest, key => if k = key then some v else lookupField rest key

/-- Python `d.get(key)`: `none` when the receiver is not a dict or lacks the key. -/
def get : JSON → String → Option JSON
  | obj fields, key => lookupField fields key
  | _, _ => none

/-- Python `d.get(key, default)`. -/
def getD (j : JSON) (key : String) (d : JSON) : JSON :=
  (j.get key).getD d

/-- Python dict assignment `d[key] = v`: overwrite in place, else append. -/
def setKey : List (String × JSON) → String → JSON → List (String × JSON)
  | [], key, v => [(key, v)]
  | (k, w) :: rest, key, v =>
    if k = key then (key, v) :: rest else (k, w) :: setKey rest key v

/-- Python `d[key] = v` on a JSON value; non-dicts are left unchanged (the sources
only assign after an `isinstance(_, dict)` guard). -/
def set : JSON → String → JSON → JSON
  | obj fields, key, v => obj (setKey fields key v)
  | j, _, _ => j

/-- Python `isinstance(x, dict)`. -/
def isObj : JSON → Bool
  | obj _ => true
  | _ => false

/-- Python `isinstance(x, list)`. -/
def isArr : JSON → Bool
  | arr _ => true
  | _ => false

/-- Python truthiness of a JSON-like value. -/
def truthy : JSON → Bool
  | null => false
  | bool b => b
  | num n => decide (n ≠ 0)
  | str s => decide (s ≠ "")
  | arr l => !l.isEmpty
  | obj l => !l.isEmpty

end JSON

mutual
/-- Python `repr` of a JSON-like value (used only inside f-string interpolation
of containers; scalar cases follow CPython exactly). -/
def pyRepr : JSON → String
  | .null => "None"
  | .bool true => "True"
  | .bool false => "False"
  | .num n => toString n
  | .str s => "\x27" ++ s ++ "\x27"
  | .arr xs => "[" ++ pyReprList xs ++ "]"
  | .obj fs => "\x7b" ++ pyReprFields fs ++ "\x7d"

/-- Comma-separated `repr` of list elements. -/
def pyReprList : List JSON → String
  | [] => ""
  | [x] => pyRepr x
  | x :: rest => pyRepr x ++ ", " ++ pyReprList rest

/-- Comma-separated `repr` of dict items. -/
def pyReprFields : List (String × JSON) → String
  | [] => ""
  | [(k, v)] => "\x27" ++ k ++ "\x27: " ++ pyRepr v
  | (k, v) :: rest => "\x27" ++ k ++ "\x27: " ++ pyRepr v ++ ", " ++ pyReprFields rest
end

/-- Python `str(x)` (f-string interpolation). -/
def pyStr : JSON → String
  | .str s => s
  | j => pyRepr j

/-- Python `str.upper` (ASCII; HTTP methods are ASCII). -/
def pyUpper (s : String) : String := .mk (s.data.map Char.toUpper)

/-- Python `str.lower` (ASCII; the engine compares against "allow"/"deny"). -/
def pyLower (s : String) : String := .mk (s.data.map Char.toLower)

/-- First occurrence of `sep` in a character list: the part before it and the
part after it. -/
def findSplit (sep : List Char) : List Char → Option (List Char × List Char)
  | [] => none
  | c :: cs =>
    if sep.isPrefixOf (c :: cs) then some ([], (c :: cs).drop sep.length)
    else
      match findSplit sep cs with
      | some (pre, post) => some (c :: pre, post)
      | none => none

/-- Fuelled splitting on every non-overlapping occurrence, left to right.
One unit of fuel per occurrence; a nonempty separator consumes at least one
character per occurrence, so fuel equal to the length of the input is always
enough. -/
def splitAux (sep : List Char) : Nat → List Char → List (List Char)
  | 0, s => [s]
  | fuel + 1, s =>
    match findSplit sep s with
    | none => [s]
    | some (pre, post) => pre :: splitAux sep fuel post

/-- Python `s.split(sep)` for a nonempty separator. -/
def pySplit (s : String) (sep : String) : List String :=
  (splitAux sep.data (s.data.length + 1) s.data).map String.mk

/-- Python `s.startswith(pre)`. -/
def pyStartsWith (s pre : String) : Bool := pre.data.isPrefixOf s.data

/-- Python `s.endswith(post)`. -/
def pyEndsWith (s post : String) : Bool := post.data.isSuffixOf s.data

/-- Lexicographic comparison of character lists (Python string `<=` on code
points). -/
def charListLe : List Char → List Char → Bool
  | [], _ => true
  | _ :: _, [] => false
  | a :: as, b :: bs => if a < b then true else if b < a then false else charListLe as bs

/-- Python string `<=` (byte-wise ascending, as `sorted` uses). -/
def nameLe (a b : String) : Bool := charListLe a.data b.data

/-- The `SECURITY_SYSTEM` constant shared by the three FHIR policy modules. -/
def SECURITY_SYSTEM : String := "http://keycloak.cirg.uw.edu/fhir/security-labels"

/-- The `ABSENT_UNKNOWN_SYSTEM` constant of `05_allow_patient_summary.py`. -/
def ABSENT_UNKNOWN_SYSTEM : String :=
  "http://hl7.org/fhir/uv/ips/CodeSystem/absent-unknown-uv-ips"

/-- Embedding of `_is_fhir_resource` (identical in the three policy modules):
a dict with a "resourceType" key. -/
def isFhirResource (body : JSON) : Bool :=
  match body with
  | .obj fields => (JSON.lookupField fields "resourceType").isSome
  | _ => false

/-- Embedding of `_has_user_security_label` of `51_fhir_response_security.py` (the copy in
`05_allow_patient_summary.py` is identical): some element of `meta.security`
is a dict whose "system" equals `SECURITY_SYSTEM` and whose "code" equals the
user id. -/
def hasUserSecurityLabel (resource : JSON) (userId : JSON) : Bool :=
  match resource with
  | .obj _ =>
    let meta := resource.getD "meta" (.obj [])
    match meta with
    | .obj _ =>
      let security := meta.getD "security" (.arr [])
      match security with
      | .arr secs =>
        secs.any fun sec =>
          sec.isObj &&
          sec.getD "system" .null == .str SECURITY_SYSTEM &&
          sec.getD "code" .null == userId
      | _ => false
    | _ => false
  | _ => false

/-- The per-entry keep decision of `_filter_bundle_entries`: non-dict entries
are kept ("be safe" branch); dict entries are kept iff their "resource"
carries the user label. -/
def keepEntry51 (userId : JSON) (entry : JSON) : Bool :=
  match entry with
  | .obj _ => hasUserSecurityLabel (entry.getD "resource" .null) userId
  | _ => true

/-- Embedding of `_filter_bundle_entries` of `51_fhir_response_security.py`: filter the
entries, then set "entry" and "total" on a copy of the bundle. -/
def filterBundleEntries (bundle : JSON) (userId : JSON) : JSON :=
  match bundle with
  | .obj _ =>
    let entries := bundle.getD "entry" (.arr [])
    match entries with
    | .arr es =>
      let filtered := es.filter (keepEntry51 userId)
      (bundle.set "entry" (.arr filtered)).set "total" (.num filtered.length)
    | _ => bundle
  | _ => bundle

/-- The `keycloak_user_id` extraction shared by the transformers: Python `None`
when `user_info` is falsy or not a dict, else `user_info.get("sub")`. -/
def extractUserId (userInfo : JSON) : JSON :=
  if userInfo.truthy && userInfo.isObj then userInfo.getD "sub" .null else .null

/-- Embedding of `transform_response` of `51_fhir_response_security.py`.  The `request`
argument is reduced to its method (the only attribute read); the returned
`none` is Python `None`. -/
def transformResponse51 (method : String) (responseBody : JSON) (userInfo : JSON) :
    Option JSON :=
  if method ≠ "GET" then none
  else
    let userId := extractUserId userInfo
    if ¬ userId.truthy then
      if responseBody.isObj && responseBody.getD "resourceType" .null == .str "Bundle" then
        some ((responseBody.set "entry" (.arr [])).set "total" (.num 0))
      else none
    else
      if responseBody.isObj && responseBody.getD "resourceType" .null == .str "Bundle" then
        some (filterBundleEntries responseBody userId)
      else if isFhirResource responseBody then
        if hasUserSecurityLabel responseBody userId then some responseBody else none
      else none

/-- One trailing newline, when present as the last character, is removed.
This mirrors the Python regex dollar anchor (outside MULTILINE mode), which
matches at the end of the string and also just before a single newline that
ends the string. -/
def dropTrailingNewline (cs : List Char) : List Char :=
  if cs.getLast? = some (Char.ofNat 10) then cs.dropLast else cs

/-- Embedding of `_is_patient_summary_request` of `05_allow_patient_summary.py`:
it runs `re.match` with the pattern `^/fhir/Patient/[^/]+/\$(summary|everything)$`.
The match succeeds exactly on paths of shape
`/fhir/Patient/<one nonempty slash-free segment>/$summary` (or `$everything`),
optionally followed by one trailing newline which the dollar anchor accepts;
the nonempty middle segment may hold any characters except the slash. -/
def isPatientSummaryRequest (path : String) : Bool :=
  match pySplit (String.mk (dropTrailingNewline path.data)) "/" with
  | ["", "fhir", "Patient", pid, op] =>
    pid ≠ "" && (op == "$summary" || op == "$everything")
  | _ => false

/-- Embedding of `_is_composition_resource` of `05_allow_patient_summary.py`. -/
def isCompositionResource (resource : JSON) : Bool :=
  resource.isObj && resource.getD "resourceType" .null == .str "Composition"

/-- Embedding of `_is_absent_unknown_resource` of `05_allow_patient_summary.py`: some
element of `code.coding` is a dict whose "system" is the absent-unknown URI. -/
def isAbsentUnknownResource (resource : JSON) : Bool :=
  match resource with
  | .obj _ =>
    match resource.get "code" with
    | some code =>
      match code with
      | .obj _ =>
        match code.get "coding" with
        | some (.arr cs) =>
          cs.any fun c => c.isObj && c.getD "system" .null == .str ABSENT_UNKNOWN_SYSTEM
        | _ => false
      | _ => false
    | none => false
  | _ => false

/-- Embedding of `_is_resource_allowed_for_summary` of `05_allow_patient_summary.py`. -/
def isResourceAllowedForSummary (resource : JSON) (userId : JSON) : Bool :=
  isCompositionResource resource ||
  hasUserSecurityLabel resource userId ||
  isAbsentUnknownResource resource

/-- The per-entry keep decision of the summary transformer: non-dict entries
are kept; dict entries are kept iff their "resource" passes the relaxed rule. -/
def keepEntry05 (userId : JSON) (entry : JSON) : Bool :=
  match entry with
  | .obj _ => isResourceAllowedForSummary (entry.getD "resource" .null) userId
  | _ => true

/-- Embedding of `transform_response` of `05_allow_patient_summary.py`; the `request`
argument is reduced to its method and path. -/
def transformResponse05 (method : String) (path : String) (responseBody : JSON)
    (userInfo : JSON) : Option JSON :=
  if method ≠ "GET" then none
  else if ¬ isPatientSummaryRequest path then none
  else if ¬ (responseBody.isObj && responseBody.getD "resourceType" .null == .str "Bundle")
  then none
  else
    let userId := extractUserId userInfo
    if ¬ userId.truthy then
      some ((responseBody.set "entry" (.arr [])).set "total" (.num 0))
    else
      match responseBody.getD "entry" (.arr []) with
      | .arr es =>
        let filtered := es.filter (keepEntry05 userId)
        some ((responseBody.set "entry" (.arr filtered)).set "total" (.num filtered.length))
      | _ => none

/-- The normalized `meta` dict computed by `_add_security_label` of
`50_fhir_request_security.py` (missing or non-dict `meta` becomes `{}`). -/
def normalizedMeta (resource : JSON) : JSON :=
  match resource.getD "meta" (.obj []) with
  | .obj fs => .obj fs
  | _ => .obj []

/-- The normalized `meta.security` list of `_add_security_label` (missing or
non-list `security` becomes `[]`). -/
def normalizedSecurity (meta : JSON) : List JSON :=
  match meta.getD "security" (.arr []) with
  | .arr es => es
  | _ => []

/-- The `meta.security` list of a resource after both normalizations. -/
def securityListOf (resource : JSON) : List JSON :=
  normalizedSecurity (normalizedMeta resource)

/-- Whether a security-list element is a dict whose "system" is the
configured Keycloak system. -/
def labelInSystem (l : JSON) : Bool :=
  l.getD "system" .null == .str SECURITY_SYSTEM

/-- The filter of `_add_security_label`: keep `sec` iff it is a dict and its
"system" differs from `SECURITY_SYSTEM`. -/
def securityKeep (l : JSON) : Bool :=
  l.isObj && !(labelInSystem l)

/-- The fresh security label appended by `_add_security_label`. -/
def mkLabel (userId : JSON) : JSON :=
  .obj [("system", .str SECURITY_SYSTEM), ("code", userId),
        ("display", .str ("Access restricted to " ++ pyStr userId))]

/-- Embedding of `_add_security_label` of `50_fhir_request_security.py`. -/
def addSecurityLabel (resource : JSON) (userId : JSON) : JSON :=
  match resource with
  | .obj _ =>
    let m := normalizedMeta resource
    let sec := (normalizedSecurity m).filter securityKeep ++ [mkLabel userId]
    resource.set "meta" (m.set "security" (.arr sec))
  | _ => resource

/-- Processing of one transaction-Bundle entry inside `transform_request` of
`50_fhir_request_security.py`.  `Except Unit` models the `AttributeError`
raised by `.upper()` when the entry request carries a non-string "method";
the transform-engine caller treats a raised exception as no change. -/
def processEntry (userId : JSON) (entry : JSON) : Except Unit JSON :=
  match entry with
  | .obj _ =>
    let entryRequest := entry.getD "request" (.obj [])
    match entryRequest with
    | .obj _ =>
      match entryRequest.getD "method" (.str "") with
      | .str s =>
        if pyUpper s = "POST" ∨ pyUpper s = "PUT" then
          let resource := entry.getD "resource" .null
          if resource.isObj && isFhirResource resource then
            .ok (entry.set "resource" (addSecurityLabel resource userId))
          else .ok entry
        else .ok entry
      | _ => .error ()
    | _ => .ok entry
  | _ => .ok entry

/-- The entry loop of `transform_request` (order-preserving, aborts on a
raised exception). -/
def processEntries (userId : JSON) : List JSON → Except Unit (List JSON)
  | [] => .ok []
  | e :: es =>
    match processEntry userId e with
    | .error err => .error err
    | .ok e2 =>
      match processEntries userId es with
      | .error err => .error err
      | .ok es2 => .ok (e2 :: es2)

/-- Embedding of `transform_request` of `50_fhir_request_security.py`; the `request`
argument is reduced to its method.  `.ok none` is a returned Python `None`
(no change), `.error ()` a raised exception. -/
def transformRequest50 (method : String) (requestBody : JSON) (userInfo : JSON) :
    Except Unit (Option JSON) :=
  if ¬ (method = "POST" ∨ method = "PUT") then .ok none
  else if ¬ (userInfo.truthy && userInfo.isObj) then .ok none
  else
    let userId := userInfo.getD "sub" .null
    if ¬ userId.truthy then .ok none
    else if ¬ isFhirResource requestBody then .ok none
    else if requestBody.getD "resourceType" .null == .str "Bundle" &&
            requestBody.getD "type" .null == .str "transaction" then
      match requestBody.getD "entry" (.arr []) with
      | .arr es =>
        match processEntries userId es with
        | .ok es2 => .ok (some (requestBody.set "entry" (.arr es2)))
        | .error e => .error e
      | _ => .ok (some (addSecurityLabel requestBody userId))
    else .ok (some (addSecurityLabel requestBody userId))

/-- A Python value returned by a policy rule, as far as the decision engine
inspects it: `None`, a bool, a string, a tuple, or anything else. -/
inductive RuleValue where
  | vnone : RuleValue
  | vbool (b : Bool) : RuleValue
  | vstr (s : String) : RuleValue
  | vtuple (elems : List RuleValue) : RuleValue
  | vother : RuleValue

mutual
/-- Decidable equality of rule values (nested inductive, so written by hand). -/
def decEqRuleValue : (a b : RuleValue) → Decidable (a = b)
  | .vnone, .vnone => .isTrue rfl
  | .vother, .vother => .isTrue rfl
  | .vbool a, .vbool b =>
    if h : a = b then .isTrue (by rw [h]) else .isFalse fun he => h (by cases he; rfl)
  | .vstr a, .vstr b =>
    if h : a = b then .isTrue (by rw [h]) else .isFalse fun he => h (by cases he; rfl)
  | .vtuple a, .vtuple b =>
    match decEqRuleValueList a b with
    | .isTrue h => .isTrue (by rw [h])
    | .isFalse h => .isFalse fun he => h (by cases he; rfl)
  | .vnone, .vbool _ => .isFalse nofun
  | .vnone, .vstr _ => .isFalse nofun
  | .vnone, .vtuple _ => .isFalse nofun
  | .vnone, .vother => .isFalse nofun
  | .vbool _, .vnone => .isFalse nofun
  | .vbool _, .vstr _ => .isFalse nofun
  | .vbool _, .vtuple _ => .isFalse nofun
  | .vbool _, .vother => .isFalse nofun
  | .vstr _, .vnone => .isFalse nofun
  | .vstr _, .vbool _ => .isFalse nofun
  | .vstr _, .vtuple _ => .isFalse nofun
  | .vstr _, .vother => .isFalse nofun
  | .vtuple _, .vnone => .isFalse nofun
  | .vtuple _, .vbool _ => .isFalse nofun
  | .vtuple _, .vstr _ => .isFalse nofun
  | .vtuple _, .vother => .isFalse nofun
  | .vother, .vnone => .isFalse nofun
  | .vother, .vbool _ => .isFalse nofun
  | .vother, .vstr _ => .isFalse nofun
  | .vother, .vtuple _ => .isFalse nofun

/-- Decidable equality of lists of rule values. -/
def decEqRuleValueList : (a b : List RuleValue) → Decidable (a = b)
  | [], [] => .isTrue rfl
  | [], _ :: _ => .isFalse nofun
  | _ :: _, [] => .isFalse nofun
  | x :: xs, y :: ys =>
    match decEqRuleValue x y, decEqRuleValueList xs ys with
    | .isTrue h1, .isTrue h2 => .isTrue (by rw [h1, h2])
    | .isFalse h1, _ => .isFalse fun he => h1 (by cases he; rfl)
    | _, .isFalse h2 => .isFalse fun he => h2 (by cases he; rfl)
end

instance : DecidableEq RuleValue := decEqRuleValue

/-- The outcome of calling one rule: a returned value, or a raised exception. -/
abbrev RuleOutcome := Except Unit RuleValue

/-- Embedding of `evaluate_policies` of `jwt_proxy/policy_engine.py` (the copy in
`jwt_proxy/api.py` decodes results identically), abstracting each rule call
by its outcome.  Returns the `(decision, message)` pair; the Python
`message` starts as `None`, modelled by `RuleValue.vnone`. -/
def evaluatePolicies : List RuleOutcome → Option Bool × RuleValue
  | [] => (none, .vnone)
  | r :: rs =>
    match r with
    | .error _ => evaluatePolicies rs
    | .ok result =>
      let dm : RuleValue × RuleValue :=
        match result with
        | .vtuple (d :: rest) => (d, rest.headD .vnone)
        | _ => (result, .vnone)
      let decision : Option Bool :=
        match dm.1 with
        | .vstr s =>
          if pyLower s = "allow" then some true
          else if pyLower s = "deny" then some false
          else none
        | .vbool b => some b
        | _ => none
      match decision with
      | some d => (some d, dm.2)
      | none => evaluatePolicies rs

/-- The three-valued decision of the specification. -/
inductive Verdict where
  | allow : Verdict
  | deny : Verdict
  | undecided : Verdict
deriving DecidableEq

/-- Verdict decoding as worded by the specification: `true` or
case-insensitive "allow" means Allow, `false` or case-insensitive "deny"
means Deny, anything else is Undecided. -/
def claimDecode (v : RuleValue) : Verdict :=
  match v with
  | .vbool true => .allow
  | .vbool false => .deny
  | .vstr s =>
    if pyLower s = "allow" then .allow
    else if pyLower s = "deny" then .deny
    else .undecided
  | _ => .undecided

/-- One rule outcome decoded per the specification: an exception is
Undecided; a nonempty tuple is decoded by its first element and contributes
its second element as the message. -/
def claimStep : RuleOutcome → Verdict × RuleValue
  | .error _ => (.undecided, .vnone)
  | .ok (.vtuple (d :: rest)) => (claimDecode d, rest.headD .vnone)
  | .ok v => (claimDecode v, .vnone)

/-- The decision engine as worded by the specification: first terminal
verdict in order, Undecided when every rule is Undecided. -/
def claimEngine : List RuleOutcome → Verdict × RuleValue
  | [] => (.undecided, .vnone)
  | r :: rs =>
    match claimStep r with
    | (.undecided, _) => claimEngine rs
    | t => t

/-- The engine result `(True | False | None)` as a `Verdict`. -/
def toVerdict : Option Bool → Verdict
  | some true => .allow
  | some false => .deny
  | none => .undecided

/-- A transformer with the request fixed: body to maybe-new body, where
`.error` models a raised exception. -/
abbrev Transformer := JSON → Except Unit (Option JSON)

/-- The loop of `apply_request_transformers` of `jwt_proxy/policy_engine.py`:
a non-`None` result replaces the body, `None` and exceptions keep it. -/
def runRequestTransformers : List Transformer → JSON → JSON
  | [], b => b
  | t :: ts, b =>
    runRequestTransformers ts
      (match t b with
       | .ok (some r) => r
       | _ => b)

/-- Embedding of `apply_request_transformers`: `None` when the request has no truthy JSON
body, else the chained body. -/
def applyRequestTransformers (ts : List Transformer) (reqJson : JSON) : Option JSON :=
  if ¬ reqJson.truthy then none else some (runRequestTransformers ts reqJson)

/-- The loop of `apply_response_transformers` of `jwt_proxy/policy_engine.py`.
`isFhir` is the flag computed from the original body; a transformer returning
`None` while the current body is a dict with a truthy "resourceType" marks the
body filtered and breaks; exceptions continue. -/
def runResponseTransformers (isFhir : Bool) : List Transformer → JSON → Option JSON
  | [], b => some b
  | t :: ts, b =>
    match t b with
    | .ok (some r) => runResponseTransformers isFhir ts r
    | .ok none =>
      if isFhir && b.isObj && (b.getD "resourceType" .null).truthy then none
      else runResponseTransformers isFhir ts b
    | .error _ => runResponseTransformers isFhir ts b

/-- Embedding of `apply_response_transformers`: non-dict bodies pass through; `none`
signals that a FHIR resource was filtered out. -/
def applyResponseTransformers (ts : List Transformer) (responseBody : JSON) : Option JSON :=
  match responseBody with
  | .obj _ =>
    runResponseTransformers (responseBody.getD "resourceType" .null != .null) ts responseBody
  | _ => some responseBody

/-- Outcome of the response side of the pipeline. -/
inductive RespOutcome where
  | ok (body : JSON) : RespOutcome
  | accessDenied401 : RespOutcome
deriving DecidableEq

/-- Modelled from the spec: the suppression post-processing of the Pipeline
Coordinator (`apply_response_transformers` has no caller under `src/`).  Per
the spec, suppression of a Bundle yields a defensive empty Bundle of the same
type (default "searchset"); suppression of a single non-Bundle FHIR resource
yields 401 Unauthorized with a structured Access denied message. -/
def coordinatorResponse (ts : List Transformer) (responseBody : JSON) : RespOutcome :=
  match applyResponseTransformers ts responseBody with
  | some b => .ok b
  | none =>
    if responseBody.getD "resourceType" .null == .str "Bundle" then
      .ok (.obj [("resourceType", .str "Bundle"),
                 ("type", responseBody.getD "type" (.str "searchset")),
                 ("total", .num 0), ("entry", .arr [])])
    else .accessDenied401

/-- Outcome of `proxy_request` of `jwt_proxy/api.py`. -/
inductive ProxyOutcome where
  | forbidden403 (message : RuleValue) : ProxyOutcome
  | upstreamJson (body : JSON) : ProxyOutcome
  | upstreamText (text : String) : ProxyOutcome
deriving DecidableEq

/-- Embedding of `proxy_request` of `jwt_proxy/api.py`: evaluate the policies, abort 403
when the decision is `False`, otherwise forward upstream and return the
decoded JSON, or the raw text when JSON decoding fails.  Rule calls are
abstracted by their outcomes, the upstream call by its decoded result. -/
def proxy_request (rules : List RuleOutcome) (upstream : Except String JSON) : ProxyOutcome :=
  match evaluatePolicies rules with
  | (some false, m) => .forbidden403 m
  | _ =>
    match upstream with
    | .ok j => .upstreamJson j
    | .error t => .upstreamText t

/-- Abstract result of resolving the signing key and running `jwt.decode`:
expiry (the only caught exception), any other failure, or decoded claims. -/
inductive JwtVerify where
  | expired : JwtVerify
  | invalidOther : JwtVerify
  | valid (claims : JSON) : JwtVerify

/-- Outcome of the `validate_jwt` view of `jwt_proxy/api.py`. -/
inductive PipelineOutcome where
  | response (p : ProxyOutcome) : PipelineOutcome
  | errorResponse (status : Nat) (message : String) : PipelineOutcome
  | unhandledError : PipelineOutcome
deriving DecidableEq

/-- The HTTP status a `PipelineOutcome` produces: handled error responses
carry their status, an unhandled exception becomes the framework 500, and a
forwarded response uses the upstream status (`none` here). -/
def statusOf : PipelineOutcome → Option Nat
  | .response _ => none
  | .errorResponse status _ => some status
  | .unhandledError => some 500

/-- The upstream decode step of `proxy_request`: decoded JSON, or raw text
when JSON decoding fails. -/
def upstreamOutcome : Except String JSON → ProxyOutcome
  | .ok j => .upstreamJson j
  | .error t => .upstreamText t

/-- The token extraction of `validate_jwt`:
`request.headers.get("authorization", "").split("Bearer ")[-1]`. -/
def bearerToken (authHeader : String) : String :=
  (pySplit authHeader "Bearer ").getLastD ""

/-- The tail of `validate_jwt` after a nonempty token was extracted: only
`ExpiredSignatureError` is caught (401); any other verification failure
propagates out of the view as an unhandled exception (an HTTP 500 from the
framework, not a handled response). -/
def handleToken (verify : String → JwtVerify) (token : String)
    (rules : List RuleOutcome) (upstream : Except String JSON) : PipelineOutcome :=
  match verify token with
  | .expired => .errorResponse 401 "token expired"
  | .invalidOther => .unhandledError
  | .valid _ => .response (proxy_request rules upstream)

/-- Embedding of `validate_jwt` of `jwt_proxy/api.py`.  The whitelist branch calls
`proxy_request` with no user info; note that `proxy_request` itself always
evaluates the policies.  The absent header is the empty string (the Python
default). -/
def validate_jwt (whitelist : List String) (relativePath : String) (authHeader : String)
    (verify : String → JwtVerify) (rules : List RuleOutcome)
    (upstream : Except String JSON) : PipelineOutcome :=
  if ("/" ++ relativePath) ∈ whitelist then .response (proxy_request rules upstream)
  else
    let token := bearerToken authHeader
    if token = "" then .errorResponse 400 "token missing"
    else handleToken verify token rules upstream

/-- A policy module file as probed by `load_policies` of
`jwt_proxy/policy_engine.py`: whether it loads, and which of the callables
`evaluate`, `rule`, `transform_request`, `transform_response` it exports. -/
structure PolicyModule where
  loadOk : Bool
  hasEvaluate : Bool
  hasRule : Bool
  hasTransformRequest : Bool
  hasTransformResponse : Bool
deriving DecidableEq

/-- The three cached registry views, each as the ordered list of module
file names. -/
structure Registry where
  policies : List String
  requestTransformers : List String
  responseTransformers : List String
deriving DecidableEq

/-- The candidate files of `load_policies`: names ending in ".py", not
starting with "__", in sorted order. -/
def insertSortedFile (x : String × PolicyModule) :
    List (String × PolicyModule) → List (String × PolicyModule)
  | [] => [x]
  | y :: ys => if nameLe x.1 y.1 then x :: y :: ys else y :: insertSortedFile x ys

/-- Stable sort of directory entries by file name (Python `sorted`). -/
def sortFiles : List (String × PolicyModule) → List (String × PolicyModule)
  | [] => []
  | x :: xs => insertSortedFile x (sortFiles xs)

def listedPolicyFiles (dir : List (String × PolicyModule)) : List (String × PolicyModule) :=
  sortFiles (dir.filter fun nm => pyEndsWith nm.1 ".py" && !(pyStartsWith nm.1 "__"))

/-- The registration loop of `load_policies`: a module that fails to load is
skipped; a module with no `evaluate` or `rule` callable is skipped entirely
(its transformers are not probed); otherwise the module joins the policies
view and, per exported transformer, the corresponding transformer view. -/
def registerModules : List (String × PolicyModule) → Registry
  | [] => ⟨[], [], []⟩
  | (name, m) :: rest =>
    let r := registerModules rest
    if ¬ m.loadOk then r
    else if ¬ (m.hasEvaluate || m.hasRule) then r
    else
      ⟨name :: r.policies,
       if m.hasTransformRequest then name :: r.requestTransformers
       else r.requestTransformers,
       if m.hasTransformResponse then name :: r.responseTransformers
       else r.responseTransformers⟩

/-- Embedding of `load_policies` of `jwt_proxy/policy_engine.py`, over an abstract
directory listing. -/
def load_policies (dir : List (String × PolicyModule)) : Registry :=
  registerModules (listedPolicyFiles dir)

lemma lookupField_setKey_self (fs : List (String × JSON)) (k : String) (v : JSON) :
    JSON.lookupField (JSON.setKey fs k v) k = some v := by
  induction fs with
  | nil => simp [JSON.setKey, JSON.lookupField]
  | cons p rest ih =>
    by_cases h : p.1 = k
    · simp [JSON.setKey, h, JSON.lookupField]
    · simp [JSON.setKey, h, JSON.lookupField, ih]

lemma lookupField_setKey_ne (fs : List (String × JSON)) (k k2 : String) (v : JSON)
    (h : k2 ≠ k) :
    JSON.lookupField (JSON.setKey fs k v) k2 = JSON.lookupField fs k2 := by
  induction fs with
  | nil => simp [JSON.setKey, JSON.lookupField, Ne.symm h]
  | cons p rest ih =>
    by_cases hp : p.1 = k
    · simp [JSON.setKey, hp, JSON.lookupField, Ne.symm h]
    · simp [JSON.setKey, hp, JSON.lookupField, ih]

lemma setKey_setKey (fs : List (String × JSON)) (k : String) (v w : JSON) :
    JSON.setKey (JSON.setKey fs k v) k w = JSON.setKey fs k w := by
  induction fs with
  | nil => simp [JSON.setKey]
  | cons p rest ih =>
    by_cases hp : p.1 = k
    · simp [JSON.setKey, hp]
    · simp [JSON.setKey, hp, ih]

lemma get_set_self (fs : List (String × JSON)) (k : String) (v : JSON) :
    ((JSON.obj fs).set k v).get k = some v := by
  simp [JSON.set, JSON.get, lookupField_setKey_self]

lemma get_set_ne (fs : List (String × JSON)) (k k2 : String) (v : JSON) (h : k2 ≠ k) :
    ((JSON.obj fs).set k v).get k2 = (JSON.obj fs).get k2 := by
  simp [JSON.set, JSON.get, lookupField_setKey_ne _ _ _ _ h]

lemma getD_set_self (fs : List (String × JSON)) (k : String) (v d : JSON) :
    ((JSON.obj fs).set k v).getD k d = v := by
  simp [JSON.getD, get_set_self]

lemma getD_set_ne (fs : List (String × JSON)) (k k2 : String) (v d : JSON) (h : k2 ≠ k) :
    ((JSON.obj fs).set k v).getD k2 d = (JSON.obj fs).getD k2 d := by
  simp [JSON.getD, get_set_ne _ _ _ _ h]

lemma set_set_obj (fs : List (String × JSON)) (k : String) (v w : JSON) :
    (((JSON.obj fs).set k v).set k w) = (JSON.obj fs).set k w := by
  simp [JSON.set, setKey_setKey]

lemma set_obj_isObj (fs : List (String × JSON)) (k : String) (v : JSON) :
    ((JSON.obj fs).set k v).isObj = true := by
  simp [JSON.set, JSON.isObj]

/-- The normalized meta of any value is a dict. -/
lemma normalizedMeta_isObj (j : JSON) : (normalizedMeta j).isObj = true := by
  unfold normalizedMeta
  rcases h : j.getD "meta" (.obj []) with _ | _ | _ | _ | _ | fs <;> simp [JSON.isObj]

/-- The normalized meta of any value is a dict (existential form). -/
lemma normalizedMeta_eq_obj (j : JSON) : ∃ mfs, normalizedMeta j = .obj mfs := by
  unfold normalizedMeta
  rcases h : j.getD "meta" (.obj []) with _ | _ | _ | _ | _ | fs <;> exact ⟨_, rfl⟩

/-- Normalized meta of a dict whose "meta" key was just assigned a dict. -/
lemma normalizedMeta_setKey (fs mfs : List (String × JSON)) :
    normalizedMeta (.obj (JSON.setKey fs "meta" (.obj mfs))) = .obj mfs := by
  unfold normalizedMeta
  simp [JSON.getD, JSON.get, lookupField_setKey_self]

/-- Security list of a dict whose meta and security were just assigned. -/
lemma securityListOf_setKey (fs mfs : List (String × JSON)) (S : List JSON) :
    securityListOf
      (.obj (JSON.setKey fs "meta"
        (.obj (JSON.setKey mfs "security" (.arr S))))) = S := by
  unfold securityListOf
  rw [normalizedMeta_setKey]
  unfold normalizedSecurity
  simp [JSON.getD, JSON.get, lookupField_setKey_self]

/-- The new label always fails the keep filter: its system is the configured
one. -/
lemma securityKeep_mkLabel (u : JSON) : securityKeep (mkLabel u) = false := by
  simp [securityKeep, mkLabel, labelInSystem, JSON.getD, JSON.get, JSON.lookupField]

/-- Filtering by `securityKeep` is idempotent. -/
lemma filter_securityKeep_idem (l : List JSON) :
    (l.filter securityKeep).filter securityKeep = l.filter securityKeep := by
  rw [List.filter_filter]
  simp

/-- Unfolding of `addSecurityLabel` on a dict. -/
lemma addSecurityLabel_obj (fs : List (String × JSON)) (u : JSON) :
    addSecurityLabel (.obj fs) u =
      (JSON.obj fs).set "meta"
        ((normalizedMeta (.obj fs)).set "security"
          (.arr ((securityListOf (.obj fs)).filter securityKeep ++ [mkLabel u]))) := by
  rfl

/-- Applying `addSecurityLabel` to a dict yields a dict. -/
lemma addSecurityLabel_isObj (fs : List (String × JSON)) (u : JSON) :
    (addSecurityLabel (.obj fs) u).isObj = true := by
  rw [addSecurityLabel_obj]; exact set_obj_isObj ..

/-- The function `addSecurityLabel` only touches the "meta" key. -/
lemma get_addSecurityLabel_ne (fs : List (String × JSON)) (u : JSON) (k : String)
    (h : k ≠ "meta") :
    (addSecurityLabel (.obj fs) u).get k = (JSON.obj fs).get k := by
  rw [addSecurityLabel_obj]; exact get_set_ne _ _ _ _ h

/-- Unfolding of `addSecurityLabel` on a dict into `setKey` form. -/
lemma addSecurityLabel_setKey_form (fs mfs : List (String × JSON)) (old : List JSON)
    (u : JSON) (hm : normalizedMeta (.obj fs) = .obj mfs)
    (hold : securityListOf (.obj fs) = old) :
    addSecurityLabel (.obj fs) u =
      .obj (JSON.setKey fs "meta"
        (.obj (JSON.setKey mfs "security"
          (.arr (old.filter securityKeep ++ [mkLabel u]))))) := by
  rw [addSecurityLabel_obj, hm, hold]; rfl

/-- The security list after `addSecurityLabel`: the kept old labels followed
by the fresh label. -/
lemma securityListOf_addSecurityLabel (fs : List (String × JSON)) (u : JSON) :
    securityListOf (addSecurityLabel (.obj fs) u) =
      (securityListOf (.obj fs)).filter securityKeep ++ [mkLabel u] := by
  obtain ⟨mfs, hm⟩ := normalizedMeta_eq_obj (JSON.obj fs)
  rw [addSecurityLabel_setKey_form fs mfs _ u hm rfl]
  exact securityListOf_setKey ..

/-- The fresh label alone is removed by the keep filter. -/
lemma filter_securityKeep_label (u : JSON) :
    List.filter securityKeep [mkLabel u] = [] := by
  simp [securityKeep_mkLabel]

/-- The function `_add_security_label` is idempotent in the user. -/
lemma addSecurityLabel_idem (r u : JSON) :
    addSecurityLabel (addSecurityLabel r u) u = addSecurityLabel r u := by
  rcases r with _ | _ | _ | _ | _ | fs
  case obj =>
    obtain ⟨mfs, hm⟩ := normalizedMeta_eq_obj (JSON.obj fs)
    rw [addSecurityLabel_setKey_form fs mfs (securityListOf (.obj fs)) u hm rfl]
    rw [addSecurityLabel_setKey_form _ _ _ u (normalizedMeta_setKey ..)
      (securityListOf_setKey ..)]
    rw [List.filter_append, filter_securityKeep_idem, filter_securityKeep_label,
      List.append_nil]
    rw [setKey_setKey, setKey_setKey]
  all_goals rfl

lemma getD_setKey_self (fs : List (String × JSON)) (k : String) (v d : JSON) :
    (JSON.obj (JSON.setKey fs k v)).getD k d = v := getD_set_self fs k v d

lemma getD_setKey_ne (fs : List (String × JSON)) (k k2 : String) (v d : JSON)
    (h : k2 ≠ k) :
    (JSON.obj (JSON.setKey fs k v)).getD k2 d = (JSON.obj fs).getD k2 d :=
  getD_set_ne fs k k2 v d h

lemma isFhirResource_obj (fs : List (String × JSON)) :
    isFhirResource (.obj fs) = (JSON.lookupField fs "resourceType").isSome := rfl

/-- The function `addSecurityLabel` does not change whether the value is a FHIR resource. -/
lemma isFhirResource_addSecurityLabel (fs : List (String × JSON)) (u : JSON) :
    isFhirResource (addSecurityLabel (.obj fs) u) = isFhirResource (.obj fs) := by
  obtain ⟨mfs, hm⟩ := normalizedMeta_eq_obj (JSON.obj fs)
  rw [addSecurityLabel_setKey_form fs mfs _ u hm rfl]
  rw [isFhirResource_obj, isFhirResource_obj]
  rw [lookupField_setKey_ne _ _ _ _ (by decide)]

/-- The function `addSecurityLabel` preserves `getD` at keys other than "meta". -/
lemma getD_addSecurityLabel_ne (fs : List (String × JSON)) (u : JSON) (k : String)
    (d : JSON) (h : k ≠ "meta") :
    (addSecurityLabel (.obj fs) u).getD k d = (JSON.obj fs).getD k d := by
  unfold JSON.getD
  rw [get_addSecurityLabel_ne _ _ _ h]

/-- Re-processing an already processed transaction-Bundle entry changes
nothing. -/
lemma processEntry_fix (u e e2 : JSON) (h : processEntry u e = .ok e2) :
    processEntry u e2 = .ok e2 := by
  rcases e with _ | b | n | s | es | fs
  case null => cases h; rfl
  case bool => cases h; rfl
  case num => cases h; rfl
  case str => cases h; rfl
  case arr => cases h; rfl
  case obj =>
    rcases hreq : (JSON.obj fs).getD "request" (.obj []) with _ | _ | _ | _ | _ | rfs
    case null | bool | num | str | arr =>
      simp only [processEntry, hreq] at h
      cases h
      simp only [processEntry, hreq]
    case obj =>
      rcases hmeth : (JSON.obj rfs).getD "method" (.str "") with _ | _ | _ | ms | _ | _
      case null | bool | num | arr | obj =>
        simp only [processEntry, hreq, hmeth] at h
        exact Except.noConfusion h
      case str =>
        by_cases hPU : pyUpper ms = "POST" ∨ pyUpper ms = "PUT"
        · by_cases hcond : (((JSON.obj fs).getD "resource" .null).isObj &&
              isFhirResource ((JSON.obj fs).getD "resource" .null)) = true
          · have hro := (Bool.and_eq_true _ _).mp hcond |>.1
            have hrf := (Bool.and_eq_true _ _).mp hcond |>.2
            obtain ⟨resfs, hres⟩ :
                ∃ resfs, (JSON.obj fs).getD "resource" .null = .obj resfs := by
              rcases hx : (JSON.obj fs).getD "resource" .null with _ | _ | _ | _ | _ | g <;>
                rw [hx] at hro <;>
                first
                | exact ⟨_, rfl⟩
                | simp [JSON.isObj] at hro
            simp only [processEntry, hreq, hmeth, if_pos hPU, if_pos hcond] at h
            cases h
            rw [hres] at hrf ⊢
            rw [isFhirResource_obj] at hrf
            have hal : ∃ gfs, addSecurityLabel (.obj resfs) u = .obj gfs := by
              obtain ⟨mfs, hm⟩ := normalizedMeta_eq_obj (JSON.obj resfs)
              exact ⟨_, addSecurityLabel_setKey_form resfs mfs _ u hm rfl⟩
            have hreq2 : (JSON.obj (JSON.setKey fs "resource"
                (addSecurityLabel (.obj resfs) u))).getD "request" (.obj []) = .obj rfs := by
              rw [getD_setKey_ne _ _ _ _ _ (by decide)]; exact hreq
            have hres2 : (JSON.obj (JSON.setKey fs "resource"
                (addSecurityLabel (.obj resfs) u))).getD "resource" .null =
                addSecurityLabel (.obj resfs) u := getD_setKey_self ..
            have hcond2 : ((addSecurityLabel (.obj resfs) u).isObj &&
                isFhirResource (addSecurityLabel (.obj resfs) u)) = true := by
              rw [addSecurityLabel_isObj, isFhirResource_addSecurityLabel,
                isFhirResource_obj, hrf]
              rfl
            simp only [JSON.set]
            simp only [processEntry, hreq2, hmeth, if_pos hPU, hres2, if_pos hcond2]
            rw [addSecurityLabel_idem]
            simp only [JSON.set, setKey_setKey]
          · simp only [processEntry, hreq, hmeth, if_pos hPU, if_neg hcond] at h
            cases h
            simp only [processEntry, hreq, hmeth, if_pos hPU, if_neg hcond]
        · simp only [processEntry, hreq, hmeth, if_neg hPU] at h
          cases h
          simp only [processEntry, hreq, hmeth, if_neg hPU]

/-- Re-processing an already processed entry list changes nothing. -/
lemma processEntries_fix (u : JSON) (es es2 : List JSON)
    (h : processEntries u es = .ok es2) : processEntries u es2 = .ok es2 := by
  induction es generalizing es2 with
  | nil =>
    cases h
    rfl
  | cons e rest ih =>
    rcases he : processEntry u e with he1 | e2
    · simp only [processEntries, he] at h
      exact Except.noConfusion h
    · rcases hrest : processEntries u rest with hr1 | rest2
      · simp only [processEntries, he, hrest] at h
        exact Except.noConfusion h
      · simp only [processEntries, he, hrest] at h
        cases h
        simp only [processEntries, processEntry_fix u e e2 he, ih rest2 hrest]

/-- A successful result of `transform_request` is a fixed point: running the
transformer again returns the same body. -/
lemma transformRequest50_fix (m : String) (b ui r : JSON)
    (h : transformRequest50 m b ui = .ok (some r)) :
    transformRequest50 m r ui = .ok (some r) := by
  by_cases hm : m = "POST" ∨ m = "PUT"
  swap
  · simp only [transformRequest50, if_pos hm] at h
    exact Option.noConfusion (Except.ok.inj h)
  by_cases hui : (ui.truthy && ui.isObj) = true
  swap
  · simp only [transformRequest50, if_neg (not_not_intro hm), if_pos hui] at h
    exact Option.noConfusion (Except.ok.inj h)
  by_cases hut : ((ui.getD "sub" .null).truthy) = true
  swap
  · simp only [transformRequest50, if_neg (not_not_intro hm),
      if_neg (not_not_intro hui), if_pos hut] at h
    exact Option.noConfusion (Except.ok.inj h)
  by_cases hfhir : isFhirResource b = true
  swap
  · simp only [transformRequest50, if_neg (not_not_intro hm),
      if_neg (not_not_intro hui), if_neg (not_not_intro hut), if_pos hfhir] at h
    exact Option.noConfusion (Except.ok.inj h)
  obtain ⟨bfs, rfl⟩ : ∃ bfs, b = .obj bfs := by
    rcases b with _ | _ | _ | _ | _ | bfs
    case obj => exact ⟨_, rfl⟩
    all_goals simp [isFhirResource] at hfhir
  by_cases hbt : ((JSON.obj bfs).getD "resourceType" .null == .str "Bundle" &&
      (JSON.obj bfs).getD "type" .null == .str "transaction") = true
  · rcases hent : (JSON.obj bfs).getD "entry" (.arr []) with _ | _ | _ | _ | es | gfs
    pick_goal 5
    ·
      rcases hpe : processEntries (ui.getD "sub" .null) es with err | es2
      · simp only [transformRequest50, if_neg (not_not_intro hm),
          if_neg (not_not_intro hui), if_neg (not_not_intro hut),
          if_neg (not_not_intro hfhir), if_pos hbt, hent, hpe] at h
        exact Except.noConfusion h
      · simp only [transformRequest50, if_neg (not_not_intro hm),
          if_neg (not_not_intro hui), if_neg (not_not_intro hut),
          if_neg (not_not_intro hfhir), if_pos hbt, hent, hpe,
          Except.ok.injEq, Option.some.injEq] at h
        subst h
        simp only [JSON.set]
        have hfhir2 : isFhirResource (.obj (JSON.setKey bfs "entry" (.arr es2))) = true := by
          rw [isFhirResource_obj, lookupField_setKey_ne _ _ _ _ (by decide)]
          rw [isFhirResource_obj] at hfhir
          exact hfhir
        have hrt2 : (JSON.obj (JSON.setKey bfs "entry" (.arr es2))).getD
            "resourceType" .null = (JSON.obj bfs).getD "resourceType" .null :=
          getD_setKey_ne _ _ _ _ _ (by decide)
        have hty2 : (JSON.obj (JSON.setKey bfs "entry" (.arr es2))).getD
            "type" .null = (JSON.obj bfs).getD "type" .null :=
          getD_setKey_ne _ _ _ _ _ (by decide)
        have hbt2 : ((JSON.obj (JSON.setKey bfs "entry" (.arr es2))).getD
              "resourceType" .null == .str "Bundle" &&
            (JSON.obj (JSON.setKey bfs "entry" (.arr es2))).getD
              "type" .null == .str "transaction") = true := by
          rw [hrt2, hty2]; exact hbt
        have hent2 : (JSON.obj (JSON.setKey bfs "entry" (.arr es2))).getD
            "entry" (.arr []) = .arr es2 := getD_setKey_self ..
        simp only [transformRequest50, if_neg (not_not_intro hm),
          if_neg (not_not_intro hui), if_neg (not_not_intro hut),
          if_neg (not_not_intro hfhir2), if_pos hbt2, hent2,
          processEntries_fix _ _ _ hpe]
        simp only [JSON.set, setKey_setKey]
    all_goals
      simp only [transformRequest50, if_neg (not_not_intro hm),
        if_neg (not_not_intro hui), if_neg (not_not_intro hut),
        if_neg (not_not_intro hfhir), if_pos hbt, hent,
        Except.ok.injEq, Option.some.injEq] at h
      subst h
      have hfhir2 : isFhirResource (addSecurityLabel (.obj bfs)
          (ui.getD "sub" .null)) = true := by
        rw [isFhirResource_addSecurityLabel]; exact hfhir
      have hrt2 := getD_addSecurityLabel_ne bfs (ui.getD "sub" .null)
        "resourceType" JSON.null (by decide)
      have hty2 := getD_addSecurityLabel_ne bfs (ui.getD "sub" .null)
        "type" JSON.null (by decide)
      have hent2 := getD_addSecurityLabel_ne bfs (ui.getD "sub" .null)
        "entry" (JSON.arr []) (by decide)
      have hbt2 : ((addSecurityLabel (.obj bfs) (ui.getD "sub" .null)).getD
            "resourceType" .null == .str "Bundle" &&
          (addSecurityLabel (.obj bfs) (ui.getD "sub" .null)).getD
            "type" .null == .str "transaction") = true := by
        rw [hrt2, hty2]; exact hbt
      rw [hent] at hent2
      simp only [transformRequest50, if_neg (not_not_intro hm),
        if_neg (not_not_intro hui), if_neg (not_not_intro hut),
        if_neg (not_not_intro hfhir2), if_pos hbt2, hent2, addSecurityLabel_idem]
  · simp only [transformRequest50, if_neg (not_not_intro hm),
      if_neg (not_not_intro hui), if_neg (not_not_intro hut),
      if_neg (not_not_intro hfhir), if_neg hbt,
      Except.ok.injEq, Option.some.injEq] at h
    subst h
    have hfhir2 : isFhirResource (addSecurityLabel (.obj bfs)
        (ui.getD "sub" .null)) = true := by
      rw [isFhirResource_addSecurityLabel]; exact hfhir
    have hrt2 := getD_addSecurityLabel_ne bfs (ui.getD "sub" .null)
      "resourceType" JSON.null (by decide)
    have hty2 := getD_addSecurityLabel_ne bfs (ui.getD "sub" .null)
      "type" JSON.null (by decide)
    have hbt2 : ¬ (((addSecurityLabel (.obj bfs) (ui.getD "sub" .null)).getD
          "resourceType" .null == .str "Bundle" &&
        (addSecurityLabel (.obj bfs) (ui.getD "sub" .null)).getD
          "type" .null == .str "transaction") = true) := by
      rw [hrt2, hty2]; exact hbt
    simp only [transformRequest50, if_neg (not_not_intro hm),
      if_neg (not_not_intro hui), if_neg (not_not_intro hut),
      if_neg (not_not_intro hfhir2), if_neg hbt2, addSecurityLabel_idem]

/-- C9: for every POST or PUT request body and every fixed claims value, the
request-security transform of `50_fhir_request_security.py`, run through the
request-transform engine (where a returned `None` or a raised exception keeps
the current body), is idempotent: chaining it twice equals applying it once.
The statement quantifies over every method, claims value and body, so it
covers single FHIR resources and transaction Bundles alike. -/
theorem C9_request_security_transform_idempotent (method : String)
    (userInfo reqJson : JSON) :
    applyRequestTransformers
      [fun b => transformRequest50 method b userInfo,
       fun b => transformRequest50 method b userInfo] reqJson =
      applyRequestTransformers
        [fun b => transformRequest50 method b userInfo] reqJson := by
  unfold applyRequestTransformers
  by_cases ht : reqJson.truthy = true
  swap
  · rw [if_pos ht, if_pos ht]
  rw [if_neg (not_not_intro ht), if_neg (not_not_intro ht)]
  rcases hTb : transformRequest50 method reqJson userInfo with err | o
  · simp only [runRequestTransformers, hTb]
  · rcases o with _ | r
    · simp only [runRequestTransformers, hTb]
    · simp only [runRequestTransformers, hTb,
        transformRequest50_fix method reqJson userInfo r hTb]

/-- C5: the decision engine `evaluate_policies` computes exactly the
first-terminal-verdict semantics worded by the specification (`claimEngine`):
booleans and case-insensitive "allow"/"deny" strings are terminal, tuples are
decoded by their first element and contribute their second as the message,
exceptions and any other value mean Undecided and the iteration continues,
and an all-Undecided run returns Undecided. -/
theorem C5_decision_engine_matches_spec (rules : List RuleOutcome) :
    claimEngine rules =
      (toVerdict (evaluatePolicies rules).1, (evaluatePolicies rules).2) := by
  induction rules with
  | nil => rfl
  | cons r rs ih =>
    rcases r with e | v
    · simp only [claimEngine, claimStep, evaluatePolicies]
      exact ih
    · rcases v with _ | b | s | elems | _
      case vnone =>
        simp only [claimEngine, claimStep, claimDecode, evaluatePolicies]
        exact ih
      case vbool =>
        cases b <;>
          simp [claimEngine, claimStep, claimDecode, evaluatePolicies, toVerdict]
      case vstr =>
        by_cases h1 : pyLower s = "allow"
        · simp [claimEngine, claimStep, claimDecode, evaluatePolicies, toVerdict, h1]
        · by_cases h2 : pyLower s = "deny"
          · simp [claimEngine, claimStep, claimDecode, evaluatePolicies, toVerdict,
              h1, h2]
          · simpa [claimEngine, claimStep, claimDecode, evaluatePolicies, h1, h2]
              using ih
      case vtuple =>
        rcases elems with _ | ⟨d, rest⟩
        · simp only [claimEngine, claimStep, claimDecode, evaluatePolicies]
          exact ih
        · rcases d with _ | b | s | ds | _
          case vnone =>
            simp only [claimEngine, claimStep, claimDecode, evaluatePolicies]
            exact ih
          case vbool =>
            cases b <;>
              simp [claimEngine, claimStep, claimDecode, evaluatePolicies, toVerdict]
          case vstr =>
            by_cases h1 : pyLower s = "allow"
            · simp [claimEngine, claimStep, claimDecode, evaluatePolicies, toVerdict,
                h1]
            · by_cases h2 : pyLower s = "deny"
              · simp [claimEngine, claimStep, claimDecode, evaluatePolicies,
                  toVerdict, h1, h2]
              · simpa [claimEngine, claimStep, claimDecode, evaluatePolicies, h1, h2]
                  using ih
          case vtuple =>
            simp only [claimEngine, claimStep, claimDecode, evaluatePolicies]
            exact ih
          case vother =>
            simp only [claimEngine, claimStep, claimDecode, evaluatePolicies]
            exact ih
      case vother =>
        simp only [claimEngine, claimStep, claimDecode, evaluatePolicies]
        exact ih

/-- Characterization of the three registry views built by the registration
loop. -/
lemma registerModules_spec (ms : List (String × PolicyModule)) :
    (registerModules ms).policies =
      (ms.filter fun nm => nm.2.loadOk && (nm.2.hasEvaluate || nm.2.hasRule)).map
        Prod.fst ∧
    (registerModules ms).requestTransformers =
      (ms.filter fun nm => nm.2.loadOk && (nm.2.hasEvaluate || nm.2.hasRule) &&
        nm.2.hasTransformRequest).map Prod.fst ∧
    (registerModules ms).responseTransformers =
      (ms.filter fun nm => nm.2.loadOk && (nm.2.hasEvaluate || nm.2.hasRule) &&
        nm.2.hasTransformResponse).map Prod.fst := by
  induction ms with
  | nil => exact ⟨rfl, rfl, rfl⟩
  | cons nm rest ih =>
    obtain ⟨ih1, ih2, ih3⟩ := ih
    rcases nm with ⟨name, m⟩
    by_cases hL : m.loadOk = true
    swap
    · have hLf : m.loadOk = false := by
        rcases hx : m.loadOk with _ | _
        · rfl
        · exact absurd hx hL
      have hreg : registerModules ((name, m) :: rest) = registerModules rest := by
        simp only [registerModules, if_pos hL]
      rw [hreg]
      refine ⟨?_, ?_, ?_⟩ <;> simp [List.filter_cons, hLf, ih1, ih2, ih3]
    by_cases hC : (m.hasEvaluate || m.hasRule) = true
    swap
    · have hCf : (m.hasEvaluate || m.hasRule) = false := by
        rcases hx : m.hasEvaluate || m.hasRule with _ | _
        · rfl
        · exact absurd hx hC
      have hreg : registerModules ((name, m) :: rest) = registerModules rest := by
        simp only [registerModules, if_neg (not_not_intro hL), if_pos hC]
      rw [hreg]
      refine ⟨?_, ?_, ?_⟩ <;> simp [List.filter_cons, hL, hCf, ih1, ih2, ih3]
    have hreg : registerModules ((name, m) :: rest) =
        ⟨name :: (registerModules rest).policies,
         if m.hasTransformRequest then
           name :: (registerModules rest).requestTransformers
         else (registerModules rest).requestTransformers,
         if m.hasTransformResponse then
           name :: (registerModules rest).responseTransformers
         else (registerModules rest).responseTransformers⟩ := by
      simp only [registerModules, if_neg (not_not_intro hL), if_neg (not_not_intro hC)]
    rw [hreg]
    refine ⟨?_, ?_, ?_⟩
    · simp [List.filter_cons, hL, hC, ih1]
    · rcases hx : m.hasTransformRequest with _ | _ <;>
        simp [List.filter_cons, hx, hL, hC, ih2]
    · rcases hx : m.hasTransformResponse with _ | _ <;>
        simp [List.filter_cons, hx, hL, hC, ih3]

/-- C7 (amended): capabilities are not registered independently.  A module is
registered at all only when it exports a callable `evaluate` or `rule`; given
that, `transform_request` and `transform_response` each independently place
the module in the corresponding ordered transformer view. -/
theorem C7_amended_registry_views (dir : List (String × PolicyModule)) :
    (load_policies dir).policies =
      ((listedPolicyFiles dir).filter fun nm =>
        nm.2.loadOk && (nm.2.hasEvaluate || nm.2.hasRule)).map Prod.fst ∧
    (load_policies dir).requestTransformers =
      ((listedPolicyFiles dir).filter fun nm =>
        nm.2.loadOk && (nm.2.hasEvaluate || nm.2.hasRule) &&
          nm.2.hasTransformRequest).map Prod.fst ∧
    (load_policies dir).responseTransformers =
      ((listedPolicyFiles dir).filter fun nm =>
        nm.2.loadOk && (nm.2.hasEvaluate || nm.2.hasRule) &&
          nm.2.hasTransformResponse).map Prod.fst :=
  registerModules_spec (listedPolicyFiles dir)

/-- C7 counterexample: a module that loads fine and exports only
`transform_request` (no `evaluate`, no `rule`) is skipped entirely; contrary
to the claim, its transformer is not added to the request-transformer view. -/
theorem C7_counterexample :
    (load_policies [("50_transform_only.py",
        ⟨true, false, false, true, false⟩)]).requestTransformers = [] ∧
    (load_policies [("50_transform_only.py",
        ⟨true, false, false, true, false⟩)]).policies = [] := by
  decide

/-- C1 (amended): a whitelisted request is forwarded without requiring a
bearer token (the outcome does not depend on the header or the verifier) and
with no user info and no transformers; however `proxy_request` does evaluate
the policies, so a Deny verdict aborts with 403, and only otherwise is the
upstream response returned verbatim. -/
theorem C1_amended_whitelist_bypasses_auth_but_not_policies
    (whitelist : List String) (path header : String) (verify : String → JwtVerify)
    (rules : List RuleOutcome) (upstream : Except String JSON)
    (hw : ("/" ++ path) ∈ whitelist) :
    validate_jwt whitelist path header verify rules upstream =
      .response (proxy_request rules upstream) ∧
    ((evaluatePolicies rules).1 = some false →
      validate_jwt whitelist path header verify rules upstream =
        .response (.forbidden403 (evaluatePolicies rules).2)) ∧
    ((evaluatePolicies rules).1 ≠ some false →
      validate_jwt whitelist path header verify rules upstream =
        .response (upstreamOutcome upstream)) := by
  have h0 : validate_jwt whitelist path header verify rules upstream =
      .response (proxy_request rules upstream) := by
    simp only [validate_jwt]
    rw [if_pos hw]
  refine ⟨h0, ?_, ?_⟩
  · intro hd
    rw [h0]
    rcases he : evaluatePolicies rules with ⟨d, msg⟩
    rw [he] at hd
    simp only at hd
    subst hd
    simp only [proxy_request, he]
  · intro hd
    rw [h0]
    rcases he : evaluatePolicies rules with ⟨d, msg⟩
    rw [he] at hd
    simp only at hd
    rcases d with _ | b
    · simp only [proxy_request, he]
      cases upstream <;> rfl
    · rcases b with _ | _
      · exact absurd rfl hd
      · simp only [proxy_request, he]
        cases upstream <;> rfl

/-- Witness for C1 (amended) at a concrete whitelisted request with a denying
rule set. -/
theorem C1_amended_witness :
    ("/" ++ "w") ∈ ["/w"] ∧
    (validate_jwt ["/w"] "w" "" (fun _ => .invalidOther)
        [.ok (.vtuple [.vstr "deny", .vstr "nope"])] (.ok (.str "up")) =
      .response (proxy_request [.ok (.vtuple [.vstr "deny", .vstr "nope"])]
        (.ok (.str "up"))) ∧
    ((evaluatePolicies [.ok (.vtuple [.vstr "deny", .vstr "nope"])]).1 = some false →
      validate_jwt ["/w"] "w" "" (fun _ => .invalidOther)
          [.ok (.vtuple [.vstr "deny", .vstr "nope"])] (.ok (.str "up")) =
        .response (.forbidden403
          (evaluatePolicies [.ok (.vtuple [.vstr "deny", .vstr "nope"])]).2)) ∧
    ((evaluatePolicies [.ok (.vtuple [.vstr "deny", .vstr "nope"])]).1 ≠ some false →
      validate_jwt ["/w"] "w" "" (fun _ => .invalidOther)
          [.ok (.vtuple [.vstr "deny", .vstr "nope"])] (.ok (.str "up")) =
        .response (upstreamOutcome (.ok (.str "up"))))) :=
  ⟨by decide, C1_amended_whitelist_bypasses_auth_but_not_policies
    ["/w"] "w" "" (fun _ => .invalidOther)
    [.ok (.vtuple [.vstr "deny", .vstr "nope"])] (.ok (.str "up")) (by decide)⟩

/-- C1 counterexample: the path is whitelisted, yet with a denying policy
rule the request is rejected with 403 instead of being forwarded; the policy
engine is consulted on the whitelist branch, contrary to the claim. -/
theorem C1_counterexample :
    ("/" ++ "w") ∈ ["/w"] ∧
    validate_jwt ["/w"] "w" "" (fun _ => .invalidOther) [.ok (.vstr "deny")]
        (.ok (.str "up")) = .response (.forbidden403 .vnone) ∧
    PipelineOutcome.response (.forbidden403 .vnone) ≠
      .response (.upstreamJson (.str "up")) :=
  ⟨by decide, rfl, by decide⟩

/-- C6 (amended): for a non-whitelisted request, an empty extracted token
yields 400 token missing and an expired token yields 401 token expired, but
any other verification failure is not caught: the view raises, producing a
framework 500, not a 401. -/
theorem C6_amended_auth_error_mapping (whitelist : List String)
    (path header : String) (verify : String → JwtVerify) (rules : List RuleOutcome)
    (upstream : Except String JSON) (hw : ("/" ++ path) ∉ whitelist) :
    (bearerToken header = "" →
      validate_jwt whitelist path header verify rules upstream =
        .errorResponse 400 "token missing") ∧
    (bearerToken header ≠ "" → verify (bearerToken header) = .expired →
      validate_jwt whitelist path header verify rules upstream =
        .errorResponse 401 "token expired") ∧
    (bearerToken header ≠ "" → verify (bearerToken header) = .invalidOther →
      statusOf (validate_jwt whitelist path header verify rules upstream) =
        some 500) := by
  refine ⟨?_, ?_, ?_⟩
  · intro ht
    simp only [validate_jwt]
    rw [if_neg hw, if_pos ht]
  · intro ht hv
    simp only [validate_jwt]
    rw [if_neg hw, if_neg ht]
    simp only [handleToken, hv]
  · intro ht hv
    simp only [validate_jwt]
    rw [if_neg hw, if_neg ht]
    simp only [handleToken, hv, statusOf]

/-- Witness for C6 (amended) at concrete requests. -/
theorem C6_amended_witness :
    ("/" ++ "some_path") ∉ ([] : List String) ∧
    ((bearerToken "Bearer expired-token" = "" →
      validate_jwt [] "some_path" "Bearer expired-token" (fun _ => .expired) []
          (.ok .null) = .errorResponse 400 "token missing") ∧
    (bearerToken "Bearer expired-token" ≠ "" →
      (fun _ => JwtVerify.expired) (bearerToken "Bearer expired-token") = .expired →
      validate_jwt [] "some_path" "Bearer expired-token" (fun _ => .expired) []
          (.ok .null) = .errorResponse 401 "token expired") ∧
    (bearerToken "Bearer expired-token" ≠ "" →
      (fun _ => JwtVerify.expired) (bearerToken "Bearer expired-token") =
        .invalidOther →
      statusOf (validate_jwt [] "some_path" "Bearer expired-token"
        (fun _ => .expired) [] (.ok .null)) = some 500)) :=
  ⟨by decide, C6_amended_auth_error_mapping [] "some_path" "Bearer expired-token"
    (fun _ => .expired) [] (.ok .null) (by decide)⟩

/-- C6 counterexample: a verification failure other than expiry (for example
an invalid signature) is not mapped to 401; the exception escapes the view
and the framework answers 500. -/
theorem C6_counterexample :
    statusOf (validate_jwt [] "p" "Bearer bad" (fun _ => .invalidOther) []
      (.ok .null)) = some 500 ∧
    statusOf (validate_jwt [] "p" "Bearer bad" (fun _ => .invalidOther) []
      (.ok .null)) ≠ some 401 :=
  ⟨rfl, by decide⟩

/-- C10 (amended): for a non-whitelisted request, the 400 token-missing
response occurs exactly when the content after the last `Bearer ` separator
is empty (the header absent or empty included); and when the header does not
contain the `Bearer ` separator at all, the entire header value is the token
passed on to verification. -/
theorem C10_amended_bearer_split (whitelist : List String) (path header : String)
    (verify : String → JwtVerify) (rules : List RuleOutcome)
    (upstream : Except String JSON) (hw : ("/" ++ path) ∉ whitelist) :
    (validate_jwt whitelist path header verify rules upstream =
        .errorResponse 400 "token missing" ↔ bearerToken header = "") ∧
    (pySplit header "Bearer " = [header] → header ≠ "" →
      bearerToken header = header ∧
      validate_jwt whitelist path header verify rules upstream =
        handleToken verify header rules upstream) := by
  constructor
  · constructor
    · intro h
      by_cases ht : bearerToken header = ""
      · exact ht
      · simp only [validate_jwt] at h
        rw [if_neg hw, if_neg ht] at h
        rcases hv : verify (bearerToken header) with _ | _ | c <;>
          simp [handleToken, hv] at h
    · intro ht
      simp only [validate_jwt]
      rw [if_neg hw, if_pos ht]
  · intro hs hne
    have htok : bearerToken header = header := by
      unfold bearerToken
      rw [hs]
      rfl
    refine ⟨htok, ?_⟩
    simp only [validate_jwt]
    rw [if_neg hw, if_neg (by rw [htok]; exact hne), htok]

/-- Witness for C10 (amended) at a concrete Basic-auth header. -/
theorem C10_amended_witness :
    ("/" ++ "p") ∉ ([] : List String) ∧
    ((validate_jwt [] "p" "Basic abc" (fun _ => .invalidOther) [] (.ok .null) =
        .errorResponse 400 "token missing" ↔ bearerToken "Basic abc" = "") ∧
    (pySplit "Basic abc" "Bearer " = ["Basic abc"] → "Basic abc" ≠ "" →
      bearerToken "Basic abc" = "Basic abc" ∧
      validate_jwt [] "p" "Basic abc" (fun _ => .invalidOther) [] (.ok .null) =
        handleToken (fun _ => .invalidOther) "Basic abc" [] (.ok .null))) :=
  ⟨by decide, C10_amended_bearer_split [] "p" "Basic abc" (fun _ => .invalidOther)
    [] (.ok .null) (by decide)⟩

/-- C10 counterexample: the header "xBearer " is nonempty and does not begin
with the `Bearer ` prefix, yet the split leaves an empty token and the
request is answered 400 token missing, contrary to the claim that such
headers never get the 400. -/
theorem C10_counterexample :
    pyStartsWith "xBearer " "Bearer " = false ∧ "xBearer " ≠ "" ∧
    validate_jwt [] "p" "xBearer " (fun _ => .invalidOther) [] (.ok .null) =
      .errorResponse 400 "token missing" :=
  ⟨by decide, by decide, rfl⟩

lemma truthy_obj_of_lookup (fs : List (String × JSON)) (k : String) (v : JSON)
    (h : JSON.lookupField fs k = some v) : (JSON.obj fs).truthy = true := by
  cases fs with
  | nil => exact Option.noConfusion h
  | cons p rest => rfl

lemma getD_obj_of_lookup (fs : List (String × JSON)) (k : String) (v d : JSON)
    (h : JSON.lookupField fs k = some v) : (JSON.obj fs).getD k d = v := by
  simp [JSON.getD, JSON.get, h]

lemma labelInSystem_mkLabel (u : JSON) : labelInSystem (mkLabel u) = true := rfl

/-- No element surviving the keep filter is in the configured system. -/
lemma filter_labelInSystem_keep (l : List JSON) :
    (l.filter securityKeep).filter labelInSystem = [] := by
  induction l with
  | nil => rfl
  | cons x rest ih =>
    by_cases hx : securityKeep x = true
    · have hlx : labelInSystem x = false := by
        have := (Bool.and_eq_true _ _).mp hx |>.2
        rcases hy : labelInSystem x with _ | _
        · rfl
        · rw [hy] at this
          exact absurd this (by decide)
      simp [List.filter_cons, hx, hlx, ih]
    · simp [List.filter_cons, hx, ih]

/-- C3 (amended): on POST/PUT, for a single non-Bundle FHIR resource and a
claims dict whose `sub` is a nonempty string `s`, the request-security
transform returns a body whose `meta.security` holds exactly one label in the
configured system, namely the fresh label with code `s`; prior labels in that
system are gone and labels in other systems are preserved unchanged and in
order. -/
theorem C3_amended_request_security_labeling (method : String)
    (fs ufs : List (String × JSON)) (s : String) (rt : JSON)
    (hm : method = "POST" ∨ method = "PUT")
    (hrt : JSON.lookupField fs "resourceType" = some rt)
    (hnb : rt ≠ .str "Bundle")
    (hsub : JSON.lookupField ufs "sub" = some (.str s))
    (hs : s ≠ "") :
    ∃ r, transformRequest50 method (.obj fs) (.obj ufs) = .ok (some r) ∧
      (securityListOf r).filter labelInSystem = [mkLabel (.str s)] ∧
      (mkLabel (.str s)).getD "code" .null = .str s ∧
      (securityListOf r).filter securityKeep =
        (securityListOf (.obj fs)).filter securityKeep := by
  have hui : ((JSON.obj ufs).truthy && (JSON.obj ufs).isObj) = true := by
    rw [truthy_obj_of_lookup ufs "sub" _ hsub]
    rfl
  have hsubv : (JSON.obj ufs).getD "sub" .null = .str s :=
    getD_obj_of_lookup ufs "sub" _ _ hsub
  have hut : (JSON.str s).truthy = true := by
    simp [JSON.truthy, hs]
  have hfhir : isFhirResource (.obj fs) = true := by
    rw [isFhirResource_obj, hrt]
    rfl
  have hrtv : (JSON.obj fs).getD "resourceType" .null = rt :=
    getD_obj_of_lookup fs "resourceType" _ _ hrt
  have hbe : (rt == JSON.str "Bundle") = false := by
    rcases hy : rt == JSON.str "Bundle" with _ | _
    · rfl
    · exact absurd (eq_of_beq hy) hnb
  have hbt : ¬ ((((JSON.obj fs).getD "resourceType" .null == .str "Bundle") &&
      ((JSON.obj fs).getD "type" .null == .str "transaction")) = true) := by
    rw [hrtv, hbe]
    simp
  refine ⟨addSecurityLabel (.obj fs) (.str s), ?_, ?_, rfl, ?_⟩
  · simp only [transformRequest50, if_neg (not_not_intro hm),
      if_neg (not_not_intro hui), hsubv, if_neg (not_not_intro hut),
      if_neg (not_not_intro hfhir), if_neg hbt]
  · rw [securityListOf_addSecurityLabel, List.filter_append,
      filter_labelInSystem_keep]
    simp [labelInSystem_mkLabel]
  · rw [securityListOf_addSecurityLabel, List.filter_append,
      filter_securityKeep_idem, filter_securityKeep_label, List.append_nil]

/-- Witness for C3 (amended): a PUT Observation carrying one old label in the
configured system and one foreign label, with user sub "u1". -/
theorem C3_amended_witness :
    (("PUT" = "POST" ∨ "PUT" = "PUT") ∧
      JSON.lookupField [("resourceType", .str "Observation"),
        ("meta", .obj [("security", .arr
          [.obj [("system", .str SECURITY_SYSTEM), ("code", .str "old")],
           .obj [("system", .str "other-system"), ("code", .str "x")]])])]
        "resourceType" = some (.str "Observation") ∧
      JSON.str "Observation" ≠ .str "Bundle" ∧
      JSON.lookupField [("sub", .str "u1")] "sub" = some (.str "u1") ∧
      "u1" ≠ "") ∧
    (∃ r, transformRequest50 "PUT"
        (.obj [("resourceType", .str "Observation"),
          ("meta", .obj [("security", .arr
            [.obj [("system", .str SECURITY_SYSTEM), ("code", .str "old")],
             .obj [("system", .str "other-system"), ("code", .str "x")]])])])
        (.obj [("sub", .str "u1")]) = .ok (some r) ∧
      (securityListOf r).filter labelInSystem = [mkLabel (.str "u1")] ∧
      (mkLabel (.str "u1")).getD "code" .null = .str "u1" ∧
      (securityListOf r).filter securityKeep =
        (securityListOf (.obj [("resourceType", .str "Observation"),
          ("meta", .obj [("security", .arr
            [.obj [("system", .str SECURITY_SYSTEM), ("code", .str "old")],
             .obj [("system", .str "other-system"), ("code", .str "x")]])])])).filter
          securityKeep) :=
  ⟨⟨by decide, by decide, by decide, by decide, by decide⟩,
    C3_amended_request_security_labeling "PUT" _ _ "u1" (.str "Observation")
      (by decide) (by decide) (by decide) (by decide) (by decide)⟩

/-- C3 counterexample: with the claim sub present but equal to the empty
string, the transform declines (returns None), the engine keeps the original
body, and the resulting body carries no label in the configured system at
all, so the exactly-one-label property of the claim fails. -/
theorem C3_counterexample :
    transformRequest50 "POST" (.obj [("resourceType", .str "Patient")])
        (.obj [("sub", .str "")]) = .ok none ∧
    applyRequestTransformers
        [fun b => transformRequest50 "POST" b (.obj [("sub", .str "")])]
        (.obj [("resourceType", .str "Patient")]) =
      some (.obj [("resourceType", .str "Patient")]) ∧
    (securityListOf (.obj [("resourceType", .str "Patient")])).filter
      labelInSystem = [] :=
  ⟨rfl, rfl, rfl⟩

/-- A claims dict whose `sub` is the string `s` yields `s` as the user id. -/
lemma extractUserId_of_sub (ufs : List (String × JSON)) (s : String)
    (hsub : JSON.lookupField ufs "sub" = some (.str s)) :
    extractUserId (.obj ufs) = .str s := by
  have hui : ((JSON.obj ufs).truthy && (JSON.obj ufs).isObj) = true := by
    rw [truthy_obj_of_lookup ufs "sub" _ hsub]
    rfl
  simp only [extractUserId, if_pos hui]
  exact getD_obj_of_lookup ufs "sub" _ _ hsub

lemma truthy_str_of_ne (s : String) (hs : s ≠ "") :
    (JSON.str s).truthy = true := by
  simp [JSON.truthy, hs]

/-- C4 (amended): for a GET Bundle response whose entries are a list and a
user with nonempty sub `s`, the response-security transformer retains exactly
the entries that either are not JSON objects (kept defensively) or whose
resource carries a label in the configured system with code `s`; it sets
`total` to the retained count and leaves `type` (and every other key)
untouched, so every retained object entry carries a matching label. -/
theorem C4_amended_bundle_response_filtering (fs ufs : List (String × JSON))
    (s : String) (es : List JSON)
    (hb : JSON.lookupField fs "resourceType" = some (.str "Bundle"))
    (hent : (JSON.obj fs).getD "entry" (.arr []) = .arr es)
    (hsub : JSON.lookupField ufs "sub" = some (.str s))
    (hs : s ≠ "") :
    ∃ r, transformResponse51 "GET" (.obj fs) (.obj ufs) = some r ∧
      r.getD "entry" .null = .arr (es.filter (keepEntry51 (.str s))) ∧
      r.getD "total" .null = .num (es.filter (keepEntry51 (.str s))).length ∧
      r.getD "type" .null = (JSON.obj fs).getD "type" .null ∧
      ∀ e ∈ es.filter (keepEntry51 (.str s)), e.isObj = true →
        hasUserSecurityLabel (e.getD "resource" .null) (.str s) = true := by
  have hut : (JSON.str s).truthy = true := truthy_str_of_ne s hs
  have hbb : ((JSON.obj fs).isObj &&
      ((JSON.obj fs).getD "resourceType" .null == .str "Bundle")) = true := by
    rw [getD_obj_of_lookup fs "resourceType" _ _ hb]
    rfl
  have hfbe : filterBundleEntries (.obj fs) (.str s) =
      .obj (JSON.setKey (JSON.setKey fs "entry"
          (.arr (es.filter (keepEntry51 (.str s))))) "total"
        (.num (es.filter (keepEntry51 (.str s))).length)) := by
    simp only [filterBundleEntries, hent]
    rfl
  have hrun : transformResponse51 "GET" (.obj fs) (.obj ufs) =
      some (filterBundleEntries (.obj fs) (.str s)) := by
    simp only [transformResponse51, if_neg (not_not_intro rfl),
      extractUserId_of_sub ufs s hsub, if_neg (not_not_intro hut), if_pos hbb]
  refine ⟨_, hrun, ?_, ?_, ?_, ?_⟩
  · rw [hfbe, getD_setKey_ne _ _ _ _ _ (by decide), getD_setKey_self]
  · rw [hfbe, getD_setKey_self]
  · rw [hfbe, getD_setKey_ne _ _ _ _ _ (by decide),
      getD_setKey_ne _ _ _ _ _ (by decide)]
  · intro e he hobj
    have hk := (List.mem_filter.mp he).2
    rcases e with _ | _ | _ | _ | _ | efs
    case obj => exact hk
    all_goals exact absurd hobj (by simp [JSON.isObj])

/-- Witness for C4 (amended): a two-entry searchset Bundle where only the
first entry is labeled for user "u1". -/
theorem C4_amended_witness :
    (JSON.lookupField [("resourceType", .str "Bundle"), ("type", .str "searchset"),
        ("entry", .arr
          [.obj [("resource", .obj [("resourceType", .str "Patient"),
            ("meta", .obj [("security", .arr
              [.obj [("system", .str SECURITY_SYSTEM), ("code", .str "u1")]])])])],
           .obj [("resource", .obj [("resourceType", .str "Patient")])]])]
        "resourceType" = some (.str "Bundle")) ∧
    (∃ r, transformResponse51 "GET"
        (.obj [("resourceType", .str "Bundle"), ("type", .str "searchset"),
          ("entry", .arr
            [.obj [("resource", .obj [("resourceType", .str "Patient"),
              ("meta", .obj [("security", .arr
                [.obj [("system", .str SECURITY_SYSTEM), ("code", .str "u1")]])])])],
             .obj [("resource", .obj [("resourceType", .str "Patient")])]])])
        (.obj [("sub", .str "u1")]) = some r ∧
      r.getD "entry" .null = .arr
        (([.obj [("resource", .obj [("resourceType", .str "Patient"),
            ("meta", .obj [("security", .arr
              [.obj [("system", .str SECURITY_SYSTEM), ("code", .str "u1")]])])])],
           .obj [("resource", .obj [("resourceType", .str "Patient")])]] :
          List JSON).filter (keepEntry51 (.str "u1"))) ∧
      r.getD "total" .null = .num
        (([.obj [("resource", .obj [("resourceType", .str "Patient"),
            ("meta", .obj [("security", .arr
              [.obj [("system", .str SECURITY_SYSTEM), ("code", .str "u1")]])])])],
           .obj [("resource", .obj [("resourceType", .str "Patient")])]] :
          List JSON).filter (keepEntry51 (.str "u1"))).length ∧
      r.getD "type" .null =
        (JSON.obj [("resourceType", .str "Bundle"), ("type", .str "searchset"),
          ("entry", .arr
            [.obj [("resource", .obj [("resourceType", .str "Patient"),
              ("meta", .obj [("security", .arr
                [.obj [("system", .str SECURITY_SYSTEM), ("code", .str "u1")]])])])],
             .obj [("resource", .obj [("resourceType", .str "Patient")])]])]).getD
          "type" .null ∧
      ∀ e ∈ ([.obj [("resource", .obj [("resourceType", .str "Patient"),
            ("meta", .obj [("security", .arr
              [.obj [("system", .str SECURITY_SYSTEM), ("code", .str "u1")]])])])],
           .obj [("resource", .obj [("resourceType", .str "Patient")])]] :
          List JSON).filter (keepEntry51 (.str "u1")), e.isObj = true →
        hasUserSecurityLabel (e.getD "resource" .null) (.str "u1") = true) :=
  ⟨by decide, C4_amended_bundle_response_filtering _ _ "u1" _
    (by decide) (by decide) (by decide) (by decide)⟩

/-- C4 counterexample: a Bundle containing a non-object entry; the entry is
retained and counted in `total` although it carries no resource with a
matching label, so the claim that exactly the matching-labeled entries are
retained is false. -/
theorem C4_counterexample :
    transformResponse51 "GET"
        (.obj [("resourceType", .str "Bundle"), ("entry", .arr [.str "junk"])])
        (.obj [("sub", .str "u1")]) =
      some (.obj [("resourceType", .str "Bundle"), ("entry", .arr [.str "junk"]),
        ("total", .num 1)]) ∧
    hasUserSecurityLabel ((JSON.str "junk").getD "resource" .null)
      (.str "u1") = false :=
  ⟨rfl, rfl⟩

/-- The dollar anchor of the source regex accepts one trailing newline: a
summary path ending in a single newline is still classified as a summary
request, while two trailing newlines are rejected. -/
lemma isPatientSummaryRequest_trailing_newline :
    isPatientSummaryRequest "/fhir/Patient/123/$summary\n" = true ∧
    isPatientSummaryRequest "/fhir/Patient/123/$summary\n\n" = false ∧
    isPatientSummaryRequest "/fhir/Patient/123/$summary" = true := by
  decide

/-- C8 (amended): on the `$summary`/`$everything` paths, for a GET Bundle
response with list entries and a user with nonempty sub `s`, the
patient-summary transformer retains exactly the entries that either are not
JSON objects (kept defensively) or whose resource passes the relaxed rule
(Composition, or matching label, or absent-unknown coding); it sets `total`
to the retained count.  On every other path it returns None (no change). -/
theorem C8_amended_patient_summary_filtering (path : String)
    (fs ufs : List (String × JSON)) (s : String) (es : List JSON)
    (hp : isPatientSummaryRequest path = true)
    (hb : JSON.lookupField fs "resourceType" = some (.str "Bundle"))
    (hent : (JSON.obj fs).getD "entry" (.arr []) = .arr es)
    (hsub : JSON.lookupField ufs "sub" = some (.str s))
    (hs : s ≠ "") :
    (∃ r, transformResponse05 "GET" path (.obj fs) (.obj ufs) = some r ∧
      r.getD "entry" .null = .arr (es.filter (keepEntry05 (.str s))) ∧
      r.getD "total" .null = .num (es.filter (keepEntry05 (.str s))).length ∧
      ∀ e ∈ es.filter (keepEntry05 (.str s)), e.isObj = true →
        isResourceAllowedForSummary (e.getD "resource" .null) (.str s) = true) ∧
    (∀ (path2 : String) (body2 ui2 : JSON), isPatientSummaryRequest path2 = false →
      transformResponse05 "GET" path2 body2 ui2 = none) := by
  constructor
  · have hut : (JSON.str s).truthy = true := truthy_str_of_ne s hs
    have hbb : ((JSON.obj fs).isObj &&
        ((JSON.obj fs).getD "resourceType" .null == .str "Bundle")) = true := by
      rw [getD_obj_of_lookup fs "resourceType" _ _ hb]
      rfl
    have hrun : transformResponse05 "GET" path (.obj fs) (.obj ufs) =
        some (.obj (JSON.setKey (JSON.setKey fs "entry"
            (.arr (es.filter (keepEntry05 (.str s))))) "total"
          (.num (es.filter (keepEntry05 (.str s))).length))) := by
      simp only [transformResponse05, if_neg (not_not_intro rfl),
        if_neg (not_not_intro hp), if_neg (not_not_intro hbb),
        extractUserId_of_sub ufs s hsub, if_neg (not_not_intro hut), hent]
      rfl
    refine ⟨_, hrun, ?_, ?_, ?_⟩
    · rw [getD_setKey_ne _ _ _ _ _ (by decide), getD_setKey_self]
    · rw [getD_setKey_self]
    · intro e he hobj
      have hk := (List.mem_filter.mp he).2
      rcases e with _ | _ | _ | _ | _ | efs
      case obj => exact hk
      all_goals exact absurd hobj (by simp [JSON.isObj])
  · intro path2 body2 ui2 h2
    simp only [transformResponse05, if_neg (not_not_intro rfl)]
    rw [if_pos (show ¬ isPatientSummaryRequest path2 = true by simp [h2])]

/-- Witness for C8 (amended): a `$summary` Bundle holding a Composition, a
labeled Observation, a foreign-labeled Observation and an absent-unknown
AllergyIntolerance, for user "u1"; plus the no-change branch at a plain FHIR
path. -/
theorem C8_amended_witness :
    (isPatientSummaryRequest "/fhir/Patient/123/$summary" = true ∧ "u1" ≠ "") ∧
    ((∃ r, transformResponse05 "GET" "/fhir/Patient/123/$summary"
        (.obj [("resourceType", .str "Bundle"),
          ("entry", .arr
            [.obj [("resource", .obj [("resourceType", .str "Composition")])],
             .obj [("resource", .obj [("resourceType", .str "Observation"),
               ("meta", .obj [("security", .arr
                 [.obj [("system", .str SECURITY_SYSTEM), ("code", .str "u1")]])])])],
             .obj [("resource", .obj [("resourceType", .str "Observation"),
               ("meta", .obj [("security", .arr
                 [.obj [("system", .str SECURITY_SYSTEM), ("code", .str "u2")]])])])],
             .obj [("resource", .obj [("resourceType", .str "AllergyIntolerance"),
               ("code", .obj [("coding", .arr
                 [.obj [("system", .str ABSENT_UNKNOWN_SYSTEM)]])])])]])])
        (.obj [("sub", .str "u1")]) = some r ∧
      r.getD "entry" .null = .arr
        (([.obj [("resource", .obj [("resourceType", .str "Composition")])],
           .obj [("resource", .obj [("resourceType", .str "Observation"),
             ("meta", .obj [("security", .arr
               [.obj [("system", .str SECURITY_SYSTEM), ("code", .str "u1")]])])])],
           .obj [("resource", .obj [("resourceType", .str "Observation"),
             ("meta", .obj [("security", .arr
               [.obj [("system", .str SECURITY_SYSTEM), ("code", .str "u2")]])])])],
           .obj [("resource", .obj [("resourceType", .str "AllergyIntolerance"),
             ("code", .obj [("coding", .arr
               [.obj [("system", .str ABSENT_UNKNOWN_SYSTEM)]])])])]] :
          List JSON).filter (keepEntry05 (.str "u1"))) ∧
      r.getD "total" .null = .num
        (([.obj [("resource", .obj [("resourceType", .str "Composition")])],
           .obj [("resource", .obj [("resourceType", .str "Observation"),
             ("meta", .obj [("security", .arr
               [.obj [("system", .str SECURITY_SYSTEM), ("code", .str "u1")]])])])],
           .obj [("resource", .obj [("resourceType", .str "Observation"),
             ("meta", .obj [("security", .arr
               [.obj [("system", .str SECURITY_SYSTEM), ("code", .str "u2")]])])])],
           .obj [("resource", .obj [("resourceType", .str "AllergyIntolerance"),
             ("code", .obj [("coding", .arr
               [.obj [("system", .str ABSENT_UNKNOWN_SYSTEM)]])])])]] :
          List JSON).filter (keepEntry05 (.str "u1"))).length ∧
      ∀ e ∈ ([.obj [("resource", .obj [("resourceType", .str "Composition")])],
           .obj [("resource", .obj [("resourceType", .str "Observation"),
             ("meta", .obj [("security", .arr
               [.obj [("system", .str SECURITY_SYSTEM), ("code", .str "u1")]])])])],
           .obj [("resource", .obj [("resourceType", .str "Observation"),
             ("meta", .obj [("security", .arr
               [.obj [("system", .str SECURITY_SYSTEM), ("code", .str "u2")]])])])],
           .obj [("resource", .obj [("resourceType", .str "AllergyIntolerance"),
             ("code", .obj [("coding", .arr
               [.obj [("system", .str ABSENT_UNKNOWN_SYSTEM)]])])])]] :
          List JSON).filter (keepEntry05 (.str "u1")), e.isObj = true →
        isResourceAllowedForSummary (e.getD "resource" .null) (.str "u1") = true) ∧
    (∀ (path2 : String) (body2 ui2 : JSON), isPatientSummaryRequest path2 = false →
      transformResponse05 "GET" path2 body2 ui2 = none)) :=
  ⟨⟨by decide, by decide⟩,
    C8_amended_patient_summary_filtering "/fhir/Patient/123/$summary" _ _ "u1" _
      (by decide) (by decide) (by decide) (by decide) (by decide)⟩

/-- C8 counterexample: on the `$summary` path a non-object Bundle entry is
retained and counted although its resource is neither a Composition nor
labeled nor absent-unknown-coded, so the claim that exactly those entries
are retained is false. -/
theorem C8_counterexample :
    transformResponse05 "GET" "/fhir/Patient/123/$summary"
        (.obj [("resourceType", .str "Bundle"), ("entry", .arr [.str "junk"])])
        (.obj [("sub", .str "u1")]) =
      some (.obj [("resourceType", .str "Bundle"), ("entry", .arr [.str "junk"]),
        ("total", .num 1)]) ∧
    isResourceAllowedForSummary ((JSON.str "junk").getD "resource" .null)
      (.str "u1") = false :=
  ⟨rfl, rfl⟩

/-- C2 (amended): for a GET response that is a single non-Bundle FHIR
resource with a truthy `resourceType` and a user with nonempty sub `s`, the
response-security transformer chained through the engine and the (spec
modelled) coordinator returns the body unchanged iff the resource carries a
label in the configured system with code `s`, and answers the structured 401
Access denied otherwise; a Bundle response never produces that 401. -/
theorem C2_amended_single_resource_access_control (fs ufs : List (String × JSON))
    (s : String) (rt : JSON)
    (hrt : JSON.lookupField fs "resourceType" = some rt)
    (hnb : rt ≠ .str "Bundle")
    (htr : rt.truthy = true)
    (hsub : JSON.lookupField ufs "sub" = some (.str s))
    (hs : s ≠ "") :
    ((hasUserSecurityLabel (.obj fs) (.str s) = true →
        coordinatorResponse
          [fun b => .ok (transformResponse51 "GET" b (.obj ufs))] (.obj fs) =
          .ok (.obj fs)) ∧
      (hasUserSecurityLabel (.obj fs) (.str s) = false →
        coordinatorResponse
          [fun b => .ok (transformResponse51 "GET" b (.obj ufs))] (.obj fs) =
          .accessDenied401)) ∧
    ∀ bfs : List (String × JSON),
      JSON.lookupField bfs "resourceType" = some (.str "Bundle") →
      coordinatorResponse
        [fun b => .ok (transformResponse51 "GET" b (.obj ufs))] (.obj bfs) ≠
        .accessDenied401 := by
  have hut : (JSON.str s).truthy = true := truthy_str_of_ne s hs
  have hrtv : (JSON.obj fs).getD "resourceType" .null = rt :=
    getD_obj_of_lookup fs "resourceType" _ _ hrt
  have hbe : (rt == JSON.str "Bundle") = false := by
    rcases hy : rt == JSON.str "Bundle" with _ | _
    · rfl
    · exact absurd (eq_of_beq hy) hnb
  have hbb : ((JSON.obj fs).isObj &&
      ((JSON.obj fs).getD "resourceType" .null == .str "Bundle")) = false := by
    rw [hrtv, hbe]
    rfl
  have hfhir : isFhirResource (.obj fs) = true := by
    rw [isFhirResource_obj, hrt]
    rfl
  have h51 : transformResponse51 "GET" (.obj fs) (.obj ufs) =
      (if hasUserSecurityLabel (.obj fs) (.str s) = true then some (.obj fs)
       else none) := by
    simp only [transformResponse51, if_neg (not_not_intro rfl),
      extractUserId_of_sub ufs s hsub, if_neg (not_not_intro hut),
      if_neg (show ¬ ((JSON.obj fs).isObj &&
        ((JSON.obj fs).getD "resourceType" .null == .str "Bundle")) = true by
          simp [hbb]),
      if_pos hfhir]
  refine ⟨⟨?_, ?_⟩, ?_⟩
  · intro hl
    have h51t : transformResponse51 "GET" (.obj fs) (.obj ufs) = some (.obj fs) := by
      rw [h51, if_pos hl]
    simp only [coordinatorResponse, applyResponseTransformers,
      runResponseTransformers, h51t]
  · intro hl
    have h51f : transformResponse51 "GET" (.obj fs) (.obj ufs) = none := by
      rw [h51, if_neg (by simp [hl])]
    have hrtnull : (rt == JSON.null) = false := by
      rcases hy : rt == JSON.null with _ | _
      · rfl
      · rw [eq_of_beq hy] at htr
        exact absurd htr (by decide)
    have hfcond : (((JSON.obj fs).getD "resourceType" .null != JSON.null) &&
        (JSON.obj fs).isObj &&
        ((JSON.obj fs).getD "resourceType" .null).truthy) = true := by
      rw [hrtv, htr]
      simp [bne, hrtnull, JSON.isObj]
    have heng : applyResponseTransformers
        [fun b => .ok (transformResponse51 "GET" b (.obj ufs))] (.obj fs) =
        none := by
      simp only [applyResponseTransformers, runResponseTransformers, h51f]
      rw [if_pos hfcond]
    simp only [coordinatorResponse, heng]
    rw [hrtv, if_neg (by simp [hbe])]
  · intro bfs hbf
    have hbb2 : ((JSON.obj bfs).isObj &&
        ((JSON.obj bfs).getD "resourceType" .null == .str "Bundle")) = true := by
      rw [getD_obj_of_lookup bfs "resourceType" _ _ hbf]
      rfl
    have h51b : transformResponse51 "GET" (.obj bfs) (.obj ufs) =
        some (filterBundleEntries (.obj bfs) (.str s)) := by
      simp only [transformResponse51, if_neg (not_not_intro rfl),
        extractUserId_of_sub ufs s hsub, if_neg (not_not_intro hut), if_pos hbb2]
    have heng2 : applyResponseTransformers
        [fun b => .ok (transformResponse51 "GET" b (.obj ufs))] (.obj bfs) =
        some (filterBundleEntries (.obj bfs) (.str s)) := by
      simp only [applyResponseTransformers, runResponseTransformers, h51b]
    simp only [coordinatorResponse, heng2]
    exact fun hcc => RespOutcome.noConfusion hcc

/-- Witness for C2 (amended): a Patient labeled for user "u1", requested by
"u1". -/
theorem C2_amended_witness :
    (JSON.lookupField [("resourceType", .str "Patient"),
        ("meta", .obj [("security", .arr
          [.obj [("system", .str SECURITY_SYSTEM), ("code", .str "u1")]])])]
        "resourceType" = some (.str "Patient") ∧
      JSON.str "Patient" ≠ .str "Bundle" ∧
      (JSON.str "Patient").truthy = true ∧ "u1" ≠ "") ∧
    (((hasUserSecurityLabel (.obj [("resourceType", .str "Patient"),
          ("meta", .obj [("security", .arr
            [.obj [("system", .str SECURITY_SYSTEM), ("code", .str "u1")]])])])
          (.str "u1") = true →
        coordinatorResponse
          [fun b => .ok (transformResponse51 "GET" b (.obj [("sub", .str "u1")]))]
          (.obj [("resourceType", .str "Patient"),
            ("meta", .obj [("security", .arr
              [.obj [("system", .str SECURITY_SYSTEM), ("code", .str "u1")]])])]) =
          .ok (.obj [("resourceType", .str "Patient"),
            ("meta", .obj [("security", .arr
              [.obj [("system", .str SECURITY_SYSTEM), ("code", .str "u1")]])])])) ∧
      (hasUserSecurityLabel (.obj [("resourceType", .str "Patient"),
          ("meta", .obj [("security", .arr
            [.obj [("system", .str SECURITY_SYSTEM), ("code", .str "u1")]])])])
          (.str "u1") = false →
        coordinatorResponse
          [fun b => .ok (transformResponse51 "GET" b (.obj [("sub", .str "u1")]))]
          (.obj [("resourceType", .str "Patient"),
            ("meta", .obj [("security", .arr
              [.obj [("system", .str SECURITY_SYSTEM), ("code", .str "u1")]])])]) =
          .accessDenied401)) ∧
    ∀ bfs : List (String × JSON),
      JSON.lookupField bfs "resourceType" = some (.str "Bundle") →
      coordinatorResponse
        [fun b => .ok (transformResponse51 "GET" b (.obj [("sub", .str "u1")]))]
        (.obj bfs) ≠ .accessDenied401) :=
  ⟨⟨by decide, by decide, by decide, by decide⟩,
    C2_amended_single_resource_access_control _ _ "u1" (.str "Patient")
      (by decide) (by decide) (by decide) (by decide) (by decide)⟩

/-- C2 counterexample: a single FHIR resource whose `resourceType` value is
the empty string carries no matching label, yet the pipeline returns it
unchanged instead of the 401 the claim requires (the engine only treats a
transformer `None` as suppression when the current resourceType value is
truthy). -/
theorem C2_counterexample :
    hasUserSecurityLabel (.obj [("resourceType", .str "")]) (.str "u1") = false ∧
    coordinatorResponse
        [fun b => .ok (transformResponse51 "GET" b (.obj [("sub", .str "u1")]))]
        (.obj [("resourceType", .str "")]) =
      .ok (.obj [("resourceType", .str "")]) :=
  ⟨rfl, rfl⟩

end JwtProxy
